import Mathlib

/-!
Verification of the biquad coefficient-derivation engine
(src/coefficients.rs of the biquad-rs crate) against its natural-language
specification.

The engine is embedded three times, at three levels of abstraction:

* a semantic model over the real numbers (`coeffs32`, `from_params32`,
  `coeffs64`, `from_params64`), parameterized over the external math
  primitives (libm `sinf`/`cosf`/`tanf`/`powf`/`sqrtf` for the f32
  instantiation and `sin`/`cos`/`tan`/`pow`/`sqrt` for the f64 one,
  plus the `PI` constant), modelling exact arithmetic;

* a syntactic model (`exprCoeffs32`, `exprCoeffs64`) recording the
  expression tree of each computed coefficient, used to settle claims
  about the arrangement of the floating-point operations (for example
  division by `a0` versus multiplication by the precomputed reciprocal
  `1.0 / a0`, which differ bit-for-bit in floating point although they
  agree over the reals);

* a NaN-aware model over `Option`-wrapped rationals (`from_params32FV`,
  `from_params64FV`) in which `none` models an IEEE NaN: comparisons
  with `none` are false and `none` propagates through arithmetic, used
  to settle the claim about NaN inputs.
-/

/-- Modelled from the spec: a frequency value is a semantic wrapper holding a
non-negative real number interpreted in Hertz, with a read accessor `hz`
(the `Hertz<T>` type of the crate is not part of the provided source;
spec section 3 fixes its payload as a non-negative real). -/
structure Hertz where
  hz : ℝ
  hz_nonneg : 0 ≤ hz

/-- The filter selector `Type<DBGain>` of src/coefficients.rs (named
`FilterType` because `Type` is reserved in Lean). The three gain-carrying
variants hold the shelf/peak gain in decibels. -/
inductive FilterType (DBGain : Type) where
  | singlePoleLowPassApprox
  | singlePoleLowPass
  | lowPass
  | highPass
  | bandPass
  | notch
  | allPass
  | lowShelf (db_gain : DBGain)
  | highShelf (db_gain : DBGain)
  | peakingEQ (db_gain : DBGain)
  deriving DecidableEq

/-- The coefficient holder `Coefficients<T>` of src/coefficients.rs
(normalized form: the implicit a0 is 1). -/
structure Coefficients (T : Type) where
  a1 : T
  a2 : T
  b0 : T
  b1 : T
  b2 : T
  deriving DecidableEq

/-- Map a function over the five coefficients. -/
def Coefficients.map {α β : Type} (f : α → β) (c : Coefficients α) :
    Coefficients β :=
  { a1 := f c.a1, a2 := f c.a2, b0 := f c.b0, b1 := f c.b1, b2 := f c.b2 }

/-- The error type `Errors` of the crate: the two validation failures. -/
inductive Errors where
  | outsideNyquist
  | negativeQ
  deriving DecidableEq

/-- The external real math primitives consumed by the engine (one such
bundle per floating-point precision: libm `sinf`/`cosf`/`tanf`/`powf`/
`sqrtf` together with `core::f32::consts::PI`, respectively `sin`/`cos`/
`tan`/`pow`/`sqrt` with `core::f64::consts::PI`), modelled as arbitrary
real functions and an arbitrary real constant. -/
structure MathPrims where
  pi : ℝ
  sin : ℝ → ℝ
  cos : ℝ → ℝ
  tan : ℝ → ℝ
  pow : ℝ → ℝ → ℝ
  sqrt : ℝ → ℝ

/-- The formula dispatch of `Coefficients::<f32>::from_params`
(src/coefficients.rs lines 98-292): the `match` on the filter selector
that follows validation, transcribed arm by arm; the `Ok` constructor of
every arm is hoisted out into `from_params32`. -/
noncomputable def coeffs32 (P : MathPrims) (filter : FilterType ℝ)
    (fs f0 : Hertz) (q_value : ℝ) : Coefficients ℝ :=
  let omega := 2 * P.pi * f0.hz / fs.hz
  match filter with
  | .singlePoleLowPassApprox =>
      let alpha := omega / (omega + 1)
      { a1 := alpha - 1, a2 := 0, b0 := alpha, b1 := 0, b2 := 0 }
  | .singlePoleLowPass =>
      let omega_t := P.tan (omega / 2)
      let a0 := 1 + omega_t
      { a1 := (omega_t - 1) / a0, a2 := 0,
        b0 := omega_t / a0, b1 := omega_t / a0, b2 := 0 }
  | .lowPass =>
      let omega_s := P.sin omega
      let omega_c := P.cos omega
      let alpha := omega_s / (2 * q_value)
      let b0 := (1 - omega_c) * 0.5
      let b1 := 1 - omega_c
      let b2 := (1 - omega_c) * 0.5
      let a0 := 1 + alpha
      let a1 := -2 * omega_c
      let a2 := 1 - alpha
      { a1 := a1 / a0, a2 := a2 / a0, b0 := b0 / a0, b1 := b1 / a0, b2 := b2 / a0 }
  | .highPass =>
      let omega_s := P.sin omega
      let omega_c := P.cos omega
      let alpha := omega_s / (2 * q_value)
      let b0 := (1 + omega_c) * 0.5
      let b1 := -(1 + omega_c)
      let b2 := (1 + omega_c) * 0.5
      let a0 := 1 + alpha
      let a1 := -2 * omega_c
      let a2 := 1 - alpha
      { a1 := a1 / a0, a2 := a2 / a0, b0 := b0 / a0, b1 := b1 / a0, b2 := b2 / a0 }
  | .bandPass =>
      let omega_s := P.sin omega
      let omega_c := P.cos omega
      let alpha := omega_s / (2 * q_value)
      let b0 := omega_s / 2
      let b1 := 0
      let b2 := -(omega_s / 2)
      let a0 := 1 + alpha
      let a1 := -2 * omega_c
      let a2 := 1 - alpha
      let div := 1 / a0
      { a1 := a1 * div, a2 := a2 * div, b0 := b0 * div, b1 := b1 * div, b2 := b2 * div }
  | .notch =>
      let omega_s := P.sin omega
      let omega_c := P.cos omega
      let alpha := omega_s / (2 * q_value)
      let b0 := 1
      let b1 := -2 * omega_c
      let b2 := 1
      let a0 := 1 + alpha
      let a1 := -2 * omega_c
      let a2 := 1 - alpha
      { a1 := a1 / a0, a2 := a2 / a0, b0 := b0 / a0, b1 := b1 / a0, b2 := b2 / a0 }
  | .allPass =>
      let omega_s := P.sin omega
      let omega_c := P.cos omega
      let alpha := omega_s / (2 * q_value)
      let b0 := 1 - alpha
      let b1 := -2 * omega_c
      let b2 := 1 + alpha
      let a0 := 1 + alpha
      let a1 := -2 * omega_c
      let a2 := 1 - alpha
      { a1 := a1 / a0, a2 := a2 / a0, b0 := b0 / a0, b1 := b1 / a0, b2 := b2 / a0 }
  | .lowShelf db_gain =>
      let a := P.pow 10 (db_gain / 40)
      let omega_s := P.sin omega
      let omega_c := P.cos omega
      let alpha := omega_s / (2 * q_value)
      let b0 := a * ((a + 1) - (a - 1) * omega_c + 2 * alpha * P.sqrt a)
      let b1 := 2 * a * ((a - 1) - (a + 1) * omega_c)
      let b2 := a * ((a + 1) - (a - 1) * omega_c - 2 * alpha * P.sqrt a)
      let a0 := (a + 1) + (a - 1) * omega_c + 2 * alpha * P.sqrt a
      let a1 := -2 * ((a - 1) + (a + 1) * omega_c)
      let a2 := (a + 1) + (a - 1) * omega_c - 2 * alpha * P.sqrt a
      { a1 := a1 / a0, a2 := a2 / a0, b0 := b0 / a0, b1 := b1 / a0, b2 := b2 / a0 }
  | .highShelf db_gain =>
      let a := P.pow 10 (db_gain / 40)
      let omega_s := P.sin omega
      let omega_c := P.cos omega
      let alpha := omega_s / (2 * q_value)
      let b0 := a * ((a + 1) + (a - 1) * omega_c + 2 * alpha * P.sqrt a)
      let b1 := -2 * a * ((a - 1) + (a + 1) * omega_c)
      let b2 := a * ((a + 1) + (a - 1) * omega_c - 2 * alpha * P.sqrt a)
      let a0 := (a + 1) - (a - 1) * omega_c + 2 * alpha * P.sqrt a
      let a1 := 2 * ((a - 1) - (a + 1) * omega_c)
      let a2 := (a + 1) - (a - 1) * omega_c - 2 * alpha * P.sqrt a
      { a1 := a1 / a0, a2 := a2 / a0, b0 := b0 / a0, b1 := b1 / a0, b2 := b2 / a0 }
  | .peakingEQ db_gain =>
      let a := P.pow 10 (db_gain / 40)
      let omega_s := P.sin omega
      let omega_c := P.cos omega
      let alpha := omega_s / (2 * q_value)
      let b0 := 1 + alpha * a
      let b1 := -2 * omega_c
      let b2 := 1 - alpha * a
      let a0 := 1 + alpha / a
      let a1 := -2 * omega_c
      let a2 := 1 - alpha / a
      { a1 := a1 / a0, a2 := a2 / a0, b0 := b0 / a0, b1 := b1 / a0, b2 := b2 / a0 }

/-- `Coefficients::<f32>::from_params` (src/coefficients.rs lines 84-293):
validation in source order, then the formula dispatch `coeffs32`. -/
noncomputable def from_params32 (P : MathPrims) (filter : FilterType ℝ)
    (fs f0 : Hertz) (q_value : ℝ) : Except Errors (Coefficients ℝ) :=
  if 2 * f0.hz > fs.hz then .error .outsideNyquist
  else if q_value < 0 then .error .negativeQ
  else .ok (coeffs32 P filter fs f0 q_value)

/-- The formula dispatch of `Coefficients::<f64>::from_params`
(src/coefficients.rs lines 314-514), transcribed arm by arm in source
order (the f64 impl lists Notch before BandPass and normalizes LowPass,
HighPass and Notch by multiplication with the reciprocal `1.0 / a0`,
unlike the f32 impl which divides there). -/
noncomputable def coeffs64 (P : MathPrims) (filter : FilterType ℝ)
    (fs f0 : Hertz) (q_value : ℝ) : Coefficients ℝ :=
  let omega := 2 * P.pi * f0.hz / fs.hz
  match filter with
  | .singlePoleLowPassApprox =>
      let alpha := omega / (omega + 1)
      { a1 := alpha - 1, a2 := 0, b0 := alpha, b1 := 0, b2 := 0 }
  | .singlePoleLowPass =>
      let omega_t := P.tan (omega / 2)
      let a0 := 1 + omega_t
      { a1 := (omega_t - 1) / a0, a2 := 0,
        b0 := omega_t / a0, b1 := omega_t / a0, b2 := 0 }
  | .lowPass =>
      let omega_s := P.sin omega
      let omega_c := P.cos omega
      let alpha := omega_s / (2 * q_value)
      let b0 := (1 - omega_c) * 0.5
      let b1 := 1 - omega_c
      let b2 := (1 - omega_c) * 0.5
      let a0 := 1 + alpha
      let a1 := -2 * omega_c
      let a2 := 1 - alpha
      let div := 1 / a0
      { a1 := a1 * div, a2 := a2 * div, b0 := b0 * div, b1 := b1 * div, b2 := b2 * div }
  | .highPass =>
      let omega_s := P.sin omega
      let omega_c := P.cos omega
      let alpha := omega_s / (2 * q_value)
      let b0 := (1 + omega_c) * 0.5
      let b1 := -(1 + omega_c)
      let b2 := (1 + omega_c) * 0.5
      let a0 := 1 + alpha
      let a1 := -2 * omega_c
      let a2 := 1 - alpha
      let div := 1 / a0
      { a1 := a1 * div, a2 := a2 * div, b0 := b0 * div, b1 := b1 * div, b2 := b2 * div }
  | .notch =>
      let omega_s := P.sin omega
      let omega_c := P.cos omega
      let alpha := omega_s / (2 * q_value)
      let b0 := 1
      let b1 := -2 * omega_c
      let b2 := 1
      let a0 := 1 + alpha
      let a1 := -2 * omega_c
      let a2 := 1 - alpha
      let div := 1 / a0
      { a1 := a1 * div, a2 := a2 * div, b0 := b0 * div, b1 := b1 * div, b2 := b2 * div }
  | .bandPass =>
      let omega_s := P.sin omega
      let omega_c := P.cos omega
      let alpha := omega_s / (2 * q_value)
      let b0 := omega_s / 2
      let b1 := 0
      let b2 := -(omega_s / 2)
      let a0 := 1 + alpha
      let a1 := -2 * omega_c
      let a2 := 1 - alpha
      let div := 1 / a0
      { a1 := a1 * div, a2 := a2 * div, b0 := b0 * div, b1 := b1 * div, b2 := b2 * div }
  | .allPass =>
      let omega_s := P.sin omega
      let omega_c := P.cos omega
      let alpha := omega_s / (2 * q_value)
      let b0 := 1 - alpha
      let b1 := -2 * omega_c
      let b2 := 1 + alpha
      let a0 := 1 + alpha
      let a1 := -2 * omega_c
      let a2 := 1 - alpha
      { a1 := a1 / a0, a2 := a2 / a0, b0 := b0 / a0, b1 := b1 / a0, b2 := b2 / a0 }
  | .lowShelf db_gain =>
      let a := P.pow 10 (db_gain / 40)
      let omega_s := P.sin omega
      let omega_c := P.cos omega
      let alpha := omega_s / (2 * q_value)
      let b0 := a * ((a + 1) - (a - 1) * omega_c + 2 * alpha * P.sqrt a)
      let b1 := 2 * a * ((a - 1) - (a + 1) * omega_c)
      let b2 := a * ((a + 1) - (a - 1) * omega_c - 2 * alpha * P.sqrt a)
      let a0 := (a + 1) + (a - 1) * omega_c + 2 * alpha * P.sqrt a
      let a1 := -2 * ((a - 1) + (a + 1) * omega_c)
      let a2 := (a + 1) + (a - 1) * omega_c - 2 * alpha * P.sqrt a
      { a1 := a1 / a0, a2 := a2 / a0, b0 := b0 / a0, b1 := b1 / a0, b2 := b2 / a0 }
  | .highShelf db_gain =>
      let a := P.pow 10 (db_gain / 40)
      let omega_s := P.sin omega
      let omega_c := P.cos omega
      let alpha := omega_s / (2 * q_value)
      let b0 := a * ((a + 1) + (a - 1) * omega_c + 2 * alpha * P.sqrt a)
      let b1 := -2 * a * ((a - 1) + (a + 1) * omega_c)
      let b2 := a * ((a + 1) + (a - 1) * omega_c - 2 * alpha * P.sqrt a)
      let a0 := (a + 1) - (a - 1) * omega_c + 2 * alpha * P.sqrt a
      let a1 := 2 * ((a - 1) - (a + 1) * omega_c)
      let a2 := (a + 1) - (a - 1) * omega_c - 2 * alpha * P.sqrt a
      { a1 := a1 / a0, a2 := a2 / a0, b0 := b0 / a0, b1 := b1 / a0, b2 := b2 / a0 }
  | .peakingEQ db_gain =>
      let a := P.pow 10 (db_gain / 40)
      let omega_s := P.sin omega
      let omega_c := P.cos omega
      let alpha := omega_s / (2 * q_value)
      let b0 := 1 + alpha * a
      let b1 := -2 * omega_c
      let b2 := 1 - alpha * a
      let a0 := 1 + alpha / a
      let a1 := -2 * omega_c
      let a2 := 1 - alpha / a
      { a1 := a1 / a0, a2 := a2 / a0, b0 := b0 / a0, b1 := b1 / a0, b2 := b2 / a0 }

/-- `Coefficients::<f64>::from_params` (src/coefficients.rs lines 300-515). -/
noncomputable def from_params64 (P : MathPrims) (filter : FilterType ℝ)
    (fs f0 : Hertz) (q_value : ℝ) : Except Errors (Coefficients ℝ) :=
  if 2 * f0.hz > fs.hz then .error .outsideNyquist
  else if q_value < 0 then .error .negativeQ
  else .ok (coeffs64 P filter fs f0 q_value)

/-- The ideal-real interpretation of the math primitives: the actual
sine, cosine, tangent, real power and square root, and the ideal pi. -/
noncomputable def realPrims : MathPrims :=
  { pi := Real.pi, sin := Real.sin, cos := Real.cos, tan := Real.tan,
    pow := fun b e => b ^ e, sqrt := Real.sqrt }

/-- A trivial primitive bundle, used to instantiate primitive-independent
statements at concrete inputs. -/
def dummyPrims : MathPrims :=
  { pi := 3, sin := fun _ => 0, cos := fun _ => 0, tan := fun _ => 0,
    pow := fun _ _ => 0, sqrt := fun _ => 0 }

theorem from_params32_ok (P : MathPrims) (t : FilterType ℝ) (fs f0 : Hertz)
    (q : ℝ) (h1 : ¬(2 * f0.hz > fs.hz)) (h2 : ¬(q < 0)) :
    from_params32 P t fs f0 q = .ok (coeffs32 P t fs f0 q) := by
  unfold from_params32
  rw [if_neg h1, if_neg h2]

theorem from_params32_nyquist (P : MathPrims) (t : FilterType ℝ)
    (fs f0 : Hertz) (q : ℝ) (h1 : 2 * f0.hz > fs.hz) :
    from_params32 P t fs f0 q = .error .outsideNyquist := by
  unfold from_params32
  rw [if_pos h1]

theorem from_params32_negq (P : MathPrims) (t : FilterType ℝ)
    (fs f0 : Hertz) (q : ℝ) (h1 : ¬(2 * f0.hz > fs.hz)) (h2 : q < 0) :
    from_params32 P t fs f0 q = .error .negativeQ := by
  unfold from_params32
  rw [if_neg h1, if_pos h2]

theorem from_params64_ok (P : MathPrims) (t : FilterType ℝ) (fs f0 : Hertz)
    (q : ℝ) (h1 : ¬(2 * f0.hz > fs.hz)) (h2 : ¬(q < 0)) :
    from_params64 P t fs f0 q = .ok (coeffs64 P t fs f0 q) := by
  unfold from_params64
  rw [if_neg h1, if_neg h2]

theorem from_params64_nyquist (P : MathPrims) (t : FilterType ℝ)
    (fs f0 : Hertz) (q : ℝ) (h1 : 2 * f0.hz > fs.hz) :
    from_params64 P t fs f0 q = .error .outsideNyquist := by
  unfold from_params64
  rw [if_pos h1]

theorem from_params64_negq (P : MathPrims) (t : FilterType ℝ)
    (fs f0 : Hertz) (q : ℝ) (h1 : ¬(2 * f0.hz > fs.hz)) (h2 : q < 0) :
    from_params64 P t fs f0 q = .error .negativeQ := by
  unfold from_params64
  rw [if_neg h1, if_pos h2]

/-- Arithmetic expression trees over the call inputs (`fs`, `f0`,
`q_value`, `db_gain`), the `PI` constant and the math primitives: the
syntactic shape of the floating-point computation performed by
`from_params`. Literals are the (exactly representable) rational number
literals appearing in the source. Two coefficients computed by different
arrangements of operations (for example `x / a0` versus
`x * (1.0 / a0)`) have different trees even when they agree over the
reals. -/
inductive Expr where
  | lit : ℚ → Expr
  | pi : Expr
  | fs : Expr
  | f0 : Expr
  | q : Expr
  | dbGain : Expr
  | neg : Expr → Expr
  | add : Expr → Expr → Expr
  | sub : Expr → Expr → Expr
  | mul : Expr → Expr → Expr
  | div : Expr → Expr → Expr
  | sin : Expr → Expr
  | cos : Expr → Expr
  | tan : Expr → Expr
  | pow : Expr → Expr → Expr
  | sqrt : Expr → Expr
  deriving DecidableEq

/-- Interpret an expression tree over the reals, reading the inputs from
the environment and the transcendental nodes from a primitive bundle. -/
noncomputable def Expr.eval (P : MathPrims) (vfs vf0 vq vg : ℝ) : Expr → ℝ
  | .lit r => (r : ℝ)
  | .pi => P.pi
  | .fs => vfs
  | .f0 => vf0
  | .q => vq
  | .dbGain => vg
  | .neg e => -(Expr.eval P vfs vf0 vq vg e)
  | .add a b => Expr.eval P vfs vf0 vq vg a + Expr.eval P vfs vf0 vq vg b
  | .sub a b => Expr.eval P vfs vf0 vq vg a - Expr.eval P vfs vf0 vq vg b
  | .mul a b => Expr.eval P vfs vf0 vq vg a * Expr.eval P vfs vf0 vq vg b
  | .div a b => Expr.eval P vfs vf0 vq vg a / Expr.eval P vfs vf0 vq vg b
  | .sin e => P.sin (Expr.eval P vfs vf0 vq vg e)
  | .cos e => P.cos (Expr.eval P vfs vf0 vq vg e)
  | .tan e => P.tan (Expr.eval P vfs vf0 vq vg e)
  | .pow a b => P.pow (Expr.eval P vfs vf0 vq vg a) (Expr.eval P vfs vf0 vq vg b)
  | .sqrt e => P.sqrt (Expr.eval P vfs vf0 vq vg e)

/-- Whether the head operation of an expression is a division. -/
def Expr.isDivNode : Expr → Bool
  | .div _ _ => true
  | _ => false

/-- Whether an expression contains any call to the transcendental
primitives (sine, cosine, tangent, power, square root). -/
def Expr.usesTransc : Expr → Bool
  | .lit _ => false
  | .pi => false
  | .fs => false
  | .f0 => false
  | .q => false
  | .dbGain => false
  | .neg e => e.usesTransc
  | .add a b => a.usesTransc || b.usesTransc
  | .sub a b => a.usesTransc || b.usesTransc
  | .mul a b => a.usesTransc || b.usesTransc
  | .div a b => a.usesTransc || b.usesTransc
  | .sin _ => true
  | .cos _ => true
  | .tan _ => true
  | .pow _ _ => true
  | .sqrt _ => true

/-- Whether any of the five coefficient expressions contains a call to a
transcendental primitive. -/
def Coefficients.usesTransc (c : Coefficients Expr) : Bool :=
  c.a1.usesTransc || c.a2.usesTransc || c.b0.usesTransc ||
    c.b1.usesTransc || c.b2.usesTransc

open Expr in
/-- The expression trees computed by `Coefficients::<f32>::from_params`
(src/coefficients.rs lines 98-292) for each selector, transcribed
operation for operation (gain payloads become the `dbGain` input). -/
def exprCoeffs32 (filter : FilterType Unit) : Coefficients Expr :=
  let omega := div (mul (mul (lit 2) pi) f0) fs
  match filter with
  | .singlePoleLowPassApprox =>
      let alpha := div omega (add omega (lit 1))
      { a1 := sub alpha (lit 1), a2 := lit 0, b0 := alpha, b1 := lit 0, b2 := lit 0 }
  | .singlePoleLowPass =>
      let omega_t := tan (div omega (lit 2))
      let a0 := add (lit 1) omega_t
      { a1 := div (sub omega_t (lit 1)) a0, a2 := lit 0,
        b0 := div omega_t a0, b1 := div omega_t a0, b2 := lit 0 }
  | .lowPass =>
      let omega_s := sin omega
      let omega_c := cos omega
      let alpha := div omega_s (mul (lit 2) q)
      let b0 := mul (sub (lit 1) omega_c) (lit 0.5)
      let b1 := sub (lit 1) omega_c
      let b2 := mul (sub (lit 1) omega_c) (lit 0.5)
      let a0 := add (lit 1) alpha
      let a1 := mul (lit (-2)) omega_c
      let a2 := sub (lit 1) alpha
      { a1 := div a1 a0, a2 := div a2 a0, b0 := div b0 a0,
        b1 := div b1 a0, b2 := div b2 a0 }
  | .highPass =>
      let omega_s := sin omega
      let omega_c := cos omega
      let alpha := div omega_s (mul (lit 2) q)
      let b0 := mul (add (lit 1) omega_c) (lit 0.5)
      let b1 := neg (add (lit 1) omega_c)
      let b2 := mul (add (lit 1) omega_c) (lit 0.5)
      let a0 := add (lit 1) alpha
      let a1 := mul (lit (-2)) omega_c
      let a2 := sub (lit 1) alpha
      { a1 := div a1 a0, a2 := div a2 a0, b0 := div b0 a0,
        b1 := div b1 a0, b2 := div b2 a0 }
  | .bandPass =>
      let omega_s := sin omega
      let omega_c := cos omega
      let alpha := div omega_s (mul (lit 2) q)
      let b0 := div omega_s (lit 2)
      let b1 := lit 0
      let b2 := neg (div omega_s (lit 2))
      let a0 := add (lit 1) alpha
      let a1 := mul (lit (-2)) omega_c
      let a2 := sub (lit 1) alpha
      let d := div (lit 1) a0
      { a1 := mul a1 d, a2 := mul a2 d, b0 := mul b0 d,
        b1 := mul b1 d, b2 := mul b2 d }
  | .notch =>
      let omega_s := sin omega
      let omega_c := cos omega
      let alpha := div omega_s (mul (lit 2) q)
      let b0 := lit 1
      let b1 := mul (lit (-2)) omega_c
      let b2 := lit 1
      let a0 := add (lit 1) alpha
      let a1 := mul (lit (-2)) omega_c
      let a2 := sub (lit 1) alpha
      { a1 := div a1 a0, a2 := div a2 a0, b0 := div b0 a0,
        b1 := div b1 a0, b2 := div b2 a0 }
  | .allPass =>
      let omega_s := sin omega
      let omega_c := cos omega
      let alpha := div omega_s (mul (lit 2) q)
      let b0 := sub (lit 1) alpha
      let b1 := mul (lit (-2)) omega_c
      let b2 := add (lit 1) alpha
      let a0 := add (lit 1) alpha
      let a1 := mul (lit (-2)) omega_c
      let a2 := sub (lit 1) alpha
      { a1 := div a1 a0, a2 := div a2 a0, b0 := div b0 a0,
        b1 := div b1 a0, b2 := div b2 a0 }
  | .lowShelf _ =>
      let a := pow (lit 10) (div dbGain (lit 40))
      let omega_s := sin omega
      let omega_c := cos omega
      let alpha := div omega_s (mul (lit 2) q)
      let b0 := mul a (add (sub (add a (lit 1)) (mul (sub a (lit 1)) omega_c))
        (mul (mul (lit 2) alpha) (sqrt a)))
      let b1 := mul (mul (lit 2) a) (sub (sub a (lit 1)) (mul (add a (lit 1)) omega_c))
      let b2 := mul a (sub (sub (add a (lit 1)) (mul (sub a (lit 1)) omega_c))
        (mul (mul (lit 2) alpha) (sqrt a)))
      let a0 := add (add (add a (lit 1)) (mul (sub a (lit 1)) omega_c))
        (mul (mul (lit 2) alpha) (sqrt a))
      let a1 := mul (lit (-2)) (add (sub a (lit 1)) (mul (add a (lit 1)) omega_c))
      let a2 := sub (add (add a (lit 1)) (mul (sub a (lit 1)) omega_c))
        (mul (mul (lit 2) alpha) (sqrt a))
      { a1 := div a1 a0, a2 := div a2 a0, b0 := div b0 a0,
        b1 := div b1 a0, b2 := div b2 a0 }
  | .highShelf _ =>
      let a := pow (lit 10) (div dbGain (lit 40))
      let omega_s := sin omega
      let omega_c := cos omega
      let alpha := div omega_s (mul (lit 2) q)
      let b0 := mul a (add (add (add a (lit 1)) (mul (sub a (lit 1)) omega_c))
        (mul (mul (lit 2) alpha) (sqrt a)))
      let b1 := mul (mul (lit (-2)) a) (add (sub a (lit 1)) (mul (add a (lit 1)) omega_c))
      let b2 := mul a (sub (add (add a (lit 1)) (mul (sub a (lit 1)) omega_c))
        (mul (mul (lit 2) alpha) (sqrt a)))
      let a0 := add (sub (add a (lit 1)) (mul (sub a (lit 1)) omega_c))
        (mul (mul (lit 2) alpha) (sqrt a))
      let a1 := mul (lit 2) (sub (sub a (lit 1)) (mul (add a (lit 1)) omega_c))
      let a2 := sub (sub (add a (lit 1)) (mul (sub a (lit 1)) omega_c))
        (mul (mul (lit 2) alpha) (sqrt a))
      { a1 := div a1 a0, a2 := div a2 a0, b0 := div b0 a0,
        b1 := div b1 a0, b2 := div b2 a0 }
  | .peakingEQ _ =>
      let a := pow (lit 10) (div dbGain (lit 40))
      let omega_s := sin omega
      let omega_c := cos omega
      let alpha := div omega_s (mul (lit 2) q)
      let b0 := add (lit 1) (mul alpha a)
      let b1 := mul (lit (-2)) omega_c
      let b2 := sub (lit 1) (mul alpha a)
      let a0 := add (lit 1) (div alpha a)
      let a1 := mul (lit (-2)) omega_c
      let a2 := sub (lit 1) (div alpha a)
      { a1 := div a1 a0, a2 := div a2 a0, b0 := div b0 a0,
        b1 := div b1 a0, b2 := div b2 a0 }

open Expr in
/-- The expression trees computed by the f64 instantiation
`Coefficients::<f64>::from_params` (src/coefficients.rs lines 314-514):
identical to the f32 trees except that LowPass, HighPass and Notch
normalize by multiplication with the reciprocal `1.0 / a0` there. -/
def exprCoeffs64 (filter : FilterType Unit) : Coefficients Expr :=
  let omega := div (mul (mul (lit 2) pi) f0) fs
  match filter with
  | .singlePoleLowPassApprox =>
      let alpha := div omega (add omega (lit 1))
      { a1 := sub alpha (lit 1), a2 := lit 0, b0 := alpha, b1 := lit 0, b2 := lit 0 }
  | .singlePoleLowPass =>
      let omega_t := tan (div omega (lit 2))
      let a0 := add (lit 1) omega_t
      { a1 := div (sub omega_t (lit 1)) a0, a2 := lit 0,
        b0 := div omega_t a0, b1 := div omega_t a0, b2 := lit 0 }
  | .lowPass =>
      let omega_s := sin omega
      let omega_c := cos omega
      let alpha := div omega_s (mul (lit 2) q)
      let b0 := mul (sub (lit 1) omega_c) (lit 0.5)
      let b1 := sub (lit 1) omega_c
      let b2 := mul (sub (lit 1) omega_c) (lit 0.5)
      let a0 := add (lit 1) alpha
      let a1 := mul (lit (-2)) omega_c
      let a2 := sub (lit 1) alpha
      let d := div (lit 1) a0
      { a1 := mul a1 d, a2 := mul a2 d, b0 := mul b0 d,
        b1 := mul b1 d, b2 := mul b2 d }
  | .highPass =>
      let omega_s := sin omega
      let omega_c := cos omega
      let alpha := div omega_s (mul (lit 2) q)
      let b0 := mul (add (lit 1) omega_c) (lit 0.5)
      let b1 := neg (add (lit 1) omega_c)
      let b2 := mul (add (lit 1) omega_c) (lit 0.5)
      let a0 := add (lit 1) alpha
      let a1 := mul (lit (-2)) omega_c
      let a2 := sub (lit 1) alpha
      let d := div (lit 1) a0
      { a1 := mul a1 d, a2 := mul a2 d, b0 := mul b0 d,
        b1 := mul b1 d, b2 := mul b2 d }
  | .notch =>
      let omega_s := sin omega
      let omega_c := cos omega
      let alpha := div omega_s (mul (lit 2) q)
      let b0 := lit 1
      let b1 := mul (lit (-2)) omega_c
      let b2 := lit 1
      let a0 := add (lit 1) alpha
      let a1 := mul (lit (-2)) omega_c
      let a2 := sub (lit 1) alpha
      let d := div (lit 1) a0
      { a1 := mul a1 d, a2 := mul a2 d, b0 := mul b0 d,
        b1 := mul b1 d, b2 := mul b2 d }
  | .bandPass =>
      let omega_s := sin omega
      let omega_c := cos omega
      let alpha := div omega_s (mul (lit 2) q)
      let b0 := div omega_s (lit 2)
      let b1 := lit 0
      let b2 := neg (div omega_s (lit 2))
      let a0 := add (lit 1) alpha
      let a1 := mul (lit (-2)) omega_c
      let a2 := sub (lit 1) alpha
      let d := div (lit 1) a0
      { a1 := mul a1 d, a2 := mul a2 d, b0 := mul b0 d,
        b1 := mul b1 d, b2 := mul b2 d }
  | .allPass =>
      let omega_s := sin omega
      let omega_c := cos omega
      let alpha := div omega_s (mul (lit 2) q)
      let b0 := sub (lit 1) alpha
      let b1 := mul (lit (-2)) omega_c
      let b2 := add (lit 1) alpha
      let a0 := add (lit 1) alpha
      let a1 := mul (lit (-2)) omega_c
      let a2 := sub (lit 1) alpha
      { a1 := div a1 a0, a2 := div a2 a0, b0 := div b0 a0,
        b1 := div b1 a0, b2 := div b2 a0 }
  | .lowShelf _ =>
      let a := pow (lit 10) (div dbGain (lit 40))
      let omega_s := sin omega
      let omega_c := cos omega
      let alpha := div omega_s (mul (lit 2) q)
      let b0 := mul a (add (sub (add a (lit 1)) (mul (sub a (lit 1)) omega_c))
        (mul (mul (lit 2) alpha) (sqrt a)))
      let b1 := mul (mul (lit 2) a) (sub (sub a (lit 1)) (mul (add a (lit 1)) omega_c))
      let b2 := mul a (sub (sub (add a (lit 1)) (mul (sub a (lit 1)) omega_c))
        (mul (mul (lit 2) alpha) (sqrt a)))
      let a0 := add (add (add a (lit 1)) (mul (sub a (lit 1)) omega_c))
        (mul (mul (lit 2) alpha) (sqrt a))
      let a1 := mul (lit (-2)) (add (sub a (lit 1)) (mul (add a (lit 1)) omega_c))
      let a2 := sub (add (add a (lit 1)) (mul (sub a (lit 1)) omega_c))
        (mul (mul (lit 2) alpha) (sqrt a))
      { a1 := div a1 a0, a2 := div a2 a0, b0 := div b0 a0,
        b1 := div b1 a0, b2 := div b2 a0 }
  | .highShelf _ =>
      let a := pow (lit 10) (div dbGain (lit 40))
      let omega_s := sin omega
      let omega_c := cos omega
      let alpha := div omega_s (mul (lit 2) q)
      let b0 := mul a (add (add (add a (lit 1)) (mul (sub a (lit 1)) omega_c))
        (mul (mul (lit 2) alpha) (sqrt a)))
      let b1 := mul (mul (lit (-2)) a) (add (sub a (lit 1)) (mul (add a (lit 1)) omega_c))
      let b2 := mul a (sub (add (add a (lit 1)) (mul (sub a (lit 1)) omega_c))
        (mul (mul (lit 2) alpha) (sqrt a)))
      let a0 := add (sub (add a (lit 1)) (mul (sub a (lit 1)) omega_c))
        (mul (mul (lit 2) alpha) (sqrt a))
      let a1 := mul (lit 2) (sub (sub a (lit 1)) (mul (add a (lit 1)) omega_c))
      let a2 := sub (sub (add a (lit 1)) (mul (sub a (lit 1)) omega_c))
        (mul (mul (lit 2) alpha) (sqrt a))
      { a1 := div a1 a0, a2 := div a2 a0, b0 := div b0 a0,
        b1 := div b1 a0, b2 := div b2 a0 }
  | .peakingEQ _ =>
      let a := pow (lit 10) (div dbGain (lit 40))
      let omega_s := sin omega
      let omega_c := cos omega
      let alpha := div omega_s (mul (lit 2) q)
      let b0 := add (lit 1) (mul alpha a)
      let b1 := mul (lit (-2)) omega_c
      let b2 := sub (lit 1) (mul alpha a)
      let a0 := add (lit 1) (div alpha a)
      let a1 := mul (lit (-2)) omega_c
      let a2 := sub (lit 1) (div alpha a)
      { a1 := div a1 a0, a2 := div a2 a0, b0 := div b0 a0,
        b1 := div b1 a0, b2 := div b2 a0 }

/-- The eight second-order (Audio-EQ-Cookbook) variants. -/
inductive SecondOrder where
  | lowPass
  | highPass
  | bandPass
  | notch
  | allPass
  | lowShelf
  | highShelf
  | peakingEQ
  deriving DecidableEq

/-- The selector corresponding to a second-order variant. -/
def SecondOrder.shape : SecondOrder → FilterType Unit
  | .lowPass => .lowPass
  | .highPass => .highPass
  | .bandPass => .bandPass
  | .notch => .notch
  | .allPass => .allPass
  | .lowShelf => .lowShelf ()
  | .highShelf => .highShelf ()
  | .peakingEQ => .peakingEQ ()

/-- An unnormalized cookbook row: the six raw values (b0, b1, b2, a0, a1,
a2) before normalization. -/
structure RawCoeffs (T : Type) where
  b0 : T
  b1 : T
  b2 : T
  a0 : T
  a1 : T
  a2 : T
  deriving DecidableEq

/-- Map a function over the six raw values. -/
def RawCoeffs.map {α β : Type} (f : α → β) (r : RawCoeffs α) : RawCoeffs β :=
  { b0 := f r.b0, b1 := f r.b1, b2 := f r.b2,
    a0 := f r.a0, a1 := f r.a1, a2 := f r.a2 }

open Expr in
/-- The raw (pre-normalization) bindings of the f32 cookbook arms
(src/coefficients.rs lines 124-291: the `let b0 ... let a2` lines of each
second-order arm, before the returned record). -/
def raw32 (so : SecondOrder) : RawCoeffs Expr :=
  let omega := div (mul (mul (lit 2) pi) f0) fs
  let omega_s := sin omega
  let omega_c := cos omega
  let alpha := div omega_s (mul (lit 2) q)
  match so with
  | .lowPass =>
      { b0 := mul (sub (lit 1) omega_c) (lit 0.5),
        b1 := sub (lit 1) omega_c,
        b2 := mul (sub (lit 1) omega_c) (lit 0.5),
        a0 := add (lit 1) alpha,
        a1 := mul (lit (-2)) omega_c,
        a2 := sub (lit 1) alpha }
  | .highPass =>
      { b0 := mul (add (lit 1) omega_c) (lit 0.5),
        b1 := neg (add (lit 1) omega_c),
        b2 := mul (add (lit 1) omega_c) (lit 0.5),
        a0 := add (lit 1) alpha,
        a1 := mul (lit (-2)) omega_c,
        a2 := sub (lit 1) alpha }
  | .bandPass =>
      { b0 := div omega_s (lit 2),
        b1 := lit 0,
        b2 := neg (div omega_s (lit 2)),
        a0 := add (lit 1) alpha,
        a1 := mul (lit (-2)) omega_c,
        a2 := sub (lit 1) alpha }
  | .notch =>
      { b0 := lit 1,
        b1 := mul (lit (-2)) omega_c,
        b2 := lit 1,
        a0 := add (lit 1) alpha,
        a1 := mul (lit (-2)) omega_c,
        a2 := sub (lit 1) alpha }
  | .allPass =>
      { b0 := sub (lit 1) alpha,
        b1 := mul (lit (-2)) omega_c,
        b2 := add (lit 1) alpha,
        a0 := add (lit 1) alpha,
        a1 := mul (lit (-2)) omega_c,
        a2 := sub (lit 1) alpha }
  | .lowShelf =>
      let a := pow (lit 10) (div dbGain (lit 40))
      { b0 := mul a (add (sub (add a (lit 1)) (mul (sub a (lit 1)) omega_c))
          (mul (mul (lit 2) alpha) (sqrt a))),
        b1 := mul (mul (lit 2) a) (sub (sub a (lit 1)) (mul (add a (lit 1)) omega_c)),
        b2 := mul a (sub (sub (add a (lit 1)) (mul (sub a (lit 1)) omega_c))
          (mul (mul (lit 2) alpha) (sqrt a))),
        a0 := add (add (add a (lit 1)) (mul (sub a (lit 1)) omega_c))
          (mul (mul (lit 2) alpha) (sqrt a)),
        a1 := mul (lit (-2)) (add (sub a (lit 1)) (mul (add a (lit 1)) omega_c)),
        a2 := sub (add (add a (lit 1)) (mul (sub a (lit 1)) omega_c))
          (mul (mul (lit 2) alpha) (sqrt a)) }
  | .highShelf =>
      let a := pow (lit 10) (div dbGain (lit 40))
      { b0 := mul a (add (add (add a (lit 1)) (mul (sub a (lit 1)) omega_c))
          (mul (mul (lit 2) alpha) (sqrt a))),
        b1 := mul (mul (lit (-2)) a) (add (sub a (lit 1)) (mul (add a (lit 1)) omega_c)),
        b2 := mul a (sub (add (add a (lit 1)) (mul (sub a (lit 1)) omega_c))
          (mul (mul (lit 2) alpha) (sqrt a))),
        a0 := add (sub (add a (lit 1)) (mul (sub a (lit 1)) omega_c))
          (mul (mul (lit 2) alpha) (sqrt a)),
        a1 := mul (lit 2) (sub (sub a (lit 1)) (mul (add a (lit 1)) omega_c)),
        a2 := sub (sub (add a (lit 1)) (mul (sub a (lit 1)) omega_c))
          (mul (mul (lit 2) alpha) (sqrt a)) }
  | .peakingEQ =>
      let a := pow (lit 10) (div dbGain (lit 40))
      { b0 := add (lit 1) (mul alpha a),
        b1 := mul (lit (-2)) omega_c,
        b2 := sub (lit 1) (mul alpha a),
        a0 := add (lit 1) (div alpha a),
        a1 := mul (lit (-2)) omega_c,
        a2 := sub (lit 1) (div alpha a) }

open Expr in
/-- The raw (pre-normalization) bindings of the f64 cookbook arms
(src/coefficients.rs lines 340-513); textually identical to the f32 raw
bindings (proved equal below). -/
def raw64 (so : SecondOrder) : RawCoeffs Expr :=
  let omega := div (mul (mul (lit 2) pi) f0) fs
  let omega_s := sin omega
  let omega_c := cos omega
  let alpha := div omega_s (mul (lit 2) q)
  match so with
  | .lowPass =>
      { b0 := mul (sub (lit 1) omega_c) (lit 0.5),
        b1 := sub (lit 1) omega_c,
        b2 := mul (sub (lit 1) omega_c) (lit 0.5),
        a0 := add (lit 1) alpha,
        a1 := mul (lit (-2)) omega_c,
        a2 := sub (lit 1) alpha }
  | .highPass =>
      { b0 := mul (add (lit 1) omega_c) (lit 0.5),
        b1 := neg (add (lit 1) omega_c),
        b2 := mul (add (lit 1) omega_c) (lit 0.5),
        a0 := add (lit 1) alpha,
        a1 := mul (lit (-2)) omega_c,
        a2 := sub (lit 1) alpha }
  | .bandPass =>
      { b0 := div omega_s (lit 2),
        b1 := lit 0,
        b2 := neg (div omega_s (lit 2)),
        a0 := add (lit 1) alpha,
        a1 := mul (lit (-2)) omega_c,
        a2 := sub (lit 1) alpha }
  | .notch =>
      { b0 := lit 1,
        b1 := mul (lit (-2)) omega_c,
        b2 := lit 1,
        a0 := add (lit 1) alpha,
        a1 := mul (lit (-2)) omega_c,
        a2 := sub (lit 1) alpha }
  | .allPass =>
      { b0 := sub (lit 1) alpha,
        b1 := mul (lit (-2)) omega_c,
        b2 := add (lit 1) alpha,
        a0 := add (lit 1) alpha,
        a1 := mul (lit (-2)) omega_c,
        a2 := sub (lit 1) alpha }
  | .lowShelf =>
      let a := pow (lit 10) (div dbGain (lit 40))
      { b0 := mul a (add (sub (add a (lit 1)) (mul (sub a (lit 1)) omega_c))
          (mul (mul (lit 2) alpha) (sqrt a))),
        b1 := mul (mul (lit 2) a) (sub (sub a (lit 1)) (mul (add a (lit 1)) omega_c)),
        b2 := mul a (sub (sub (add a (lit 1)) (mul (sub a (lit 1)) omega_c))
          (mul (mul (lit 2) alpha) (sqrt a))),
        a0 := add (add (add a (lit 1)) (mul (sub a (lit 1)) omega_c))
          (mul (mul (lit 2) alpha) (sqrt a)),
        a1 := mul (lit (-2)) (add (sub a (lit 1)) (mul (add a (lit 1)) omega_c)),
        a2 := sub (add (add a (lit 1)) (mul (sub a (lit 1)) omega_c))
          (mul (mul (lit 2) alpha) (sqrt a)) }
  | .highShelf =>
      let a := pow (lit 10) (div dbGain (lit 40))
      { b0 := mul a (add (add (add a (lit 1)) (mul (sub a (lit 1)) omega_c))
          (mul (mul (lit 2) alpha) (sqrt a))),
        b1 := mul (mul (lit (-2)) a) (add (sub a (lit 1)) (mul (add a (lit 1)) omega_c)),
        b2 := mul a (sub (add (add a (lit 1)) (mul (sub a (lit 1)) omega_c))
          (mul (mul (lit 2) alpha) (sqrt a))),
        a0 := add (sub (add a (lit 1)) (mul (sub a (lit 1)) omega_c))
          (mul (mul (lit 2) alpha) (sqrt a)),
        a1 := mul (lit 2) (sub (sub a (lit 1)) (mul (add a (lit 1)) omega_c)),
        a2 := sub (sub (add a (lit 1)) (mul (sub a (lit 1)) omega_c))
          (mul (mul (lit 2) alpha) (sqrt a)) }
  | .peakingEQ =>
      let a := pow (lit 10) (div dbGain (lit 40))
      { b0 := add (lit 1) (mul alpha a),
        b1 := mul (lit (-2)) omega_c,
        b2 := sub (lit 1) (mul alpha a),
        a0 := add (lit 1) (div alpha a),
        a1 := mul (lit (-2)) omega_c,
        a2 := sub (lit 1) (div alpha a) }

open Expr in
/-- Modelled from the spec: the raw cookbook table of spec section 4.1
(the eight rows for b0, b1, b2, a0, a1, a2 with omega = 2*pi*f0/fs,
alpha = sin(omega)/(2*q) and A = 10^(gain_db/40)), transcribed from the
spec's formulas; to be compared with the raw bindings of the source. -/
def specRaw (so : SecondOrder) : RawCoeffs Expr :=
  let omega := div (mul (mul (lit 2) pi) f0) fs
  let omega_s := sin omega
  let omega_c := cos omega
  let alpha := div omega_s (mul (lit 2) q)
  match so with
  | .lowPass =>
      { b0 := div (sub (lit 1) omega_c) (lit 2),
        b1 := sub (lit 1) omega_c,
        b2 := div (sub (lit 1) omega_c) (lit 2),
        a0 := add (lit 1) alpha,
        a1 := mul (lit (-2)) omega_c,
        a2 := sub (lit 1) alpha }
  | .highPass =>
      { b0 := div (add (lit 1) omega_c) (lit 2),
        b1 := neg (add (lit 1) omega_c),
        b2 := div (add (lit 1) omega_c) (lit 2),
        a0 := add (lit 1) alpha,
        a1 := mul (lit (-2)) omega_c,
        a2 := sub (lit 1) alpha }
  | .bandPass =>
      { b0 := div omega_s (lit 2),
        b1 := lit 0,
        b2 := neg (div omega_s (lit 2)),
        a0 := add (lit 1) alpha,
        a1 := mul (lit (-2)) omega_c,
        a2 := sub (lit 1) alpha }
  | .notch =>
      { b0 := lit 1,
        b1 := mul (lit (-2)) omega_c,
        b2 := lit 1,
        a0 := add (lit 1) alpha,
        a1 := mul (lit (-2)) omega_c,
        a2 := sub (lit 1) alpha }
  | .allPass =>
      { b0 := sub (lit 1) alpha,
        b1 := mul (lit (-2)) omega_c,
        b2 := add (lit 1) alpha,
        a0 := add (lit 1) alpha,
        a1 := mul (lit (-2)) omega_c,
        a2 := sub (lit 1) alpha }
  | .lowShelf =>
      let a := pow (lit 10) (div dbGain (lit 40))
      { b0 := mul a (add (sub (add a (lit 1)) (mul (sub a (lit 1)) omega_c))
          (mul (mul (lit 2) alpha) (sqrt a))),
        b1 := mul (mul (lit 2) a) (sub (sub a (lit 1)) (mul (add a (lit 1)) omega_c)),
        b2 := mul a (sub (sub (add a (lit 1)) (mul (sub a (lit 1)) omega_c))
          (mul (mul (lit 2) alpha) (sqrt a))),
        a0 := add (add (add a (lit 1)) (mul (sub a (lit 1)) omega_c))
          (mul (mul (lit 2) alpha) (sqrt a)),
        a1 := mul (lit (-2)) (add (sub a (lit 1)) (mul (add a (lit 1)) omega_c)),
        a2 := sub (add (add a (lit 1)) (mul (sub a (lit 1)) omega_c))
          (mul (mul (lit 2) alpha) (sqrt a)) }
  | .highShelf =>
      let a := pow (lit 10) (div dbGain (lit 40))
      { b0 := mul a (add (add (add a (lit 1)) (mul (sub a (lit 1)) omega_c))
          (mul (mul (lit 2) alpha) (sqrt a))),
        b1 := mul (mul (lit (-2)) a) (add (sub a (lit 1)) (mul (add a (lit 1)) omega_c)),
        b2 := mul a (sub (add (add a (lit 1)) (mul (sub a (lit 1)) omega_c))
          (mul (mul (lit 2) alpha) (sqrt a))),
        a0 := add (sub (add a (lit 1)) (mul (sub a (lit 1)) omega_c))
          (mul (mul (lit 2) alpha) (sqrt a)),
        a1 := mul (lit 2) (sub (sub a (lit 1)) (mul (add a (lit 1)) omega_c)),
        a2 := sub (sub (add a (lit 1)) (mul (sub a (lit 1)) omega_c))
          (mul (mul (lit 2) alpha) (sqrt a)) }
  | .peakingEQ =>
      let a := pow (lit 10) (div dbGain (lit 40))
      { b0 := add (lit 1) (mul alpha a),
        b1 := mul (lit (-2)) omega_c,
        b2 := sub (lit 1) (mul alpha a),
        a0 := add (lit 1) (div alpha a),
        a1 := mul (lit (-2)) omega_c,
        a2 := sub (lit 1) (div alpha a) }

/-- Normalization as the spec words it: every returned coefficient is the
quotient of the raw table entry by that row's a0. -/
def divNorm (r : RawCoeffs Expr) : Coefficients Expr :=
  { a1 := .div r.a1 r.a0, a2 := .div r.a2 r.a0, b0 := .div r.b0 r.a0,
    b1 := .div r.b1 r.a0, b2 := .div r.b2 r.a0 }

/-- Normalization by multiplication with the precomputed reciprocal
`1.0 / a0` (the `let div = 1.0 / a0` pattern of the source). -/
def recipNorm (r : RawCoeffs Expr) : Coefficients Expr :=
  let d := Expr.div (.lit 1) r.a0
  { a1 := .mul r.a1 d, a2 := .mul r.a2 d, b0 := .mul r.b0 d,
    b1 := .mul r.b1 d, b2 := .mul r.b2 d }

/-- Floating-point style values for the NaN-behavior claims: `none`
models an IEEE NaN, `some x` a (finite) number modelled as an exact
rational. Arithmetic propagates NaN; every comparison with a NaN operand
is false, as in IEEE 754. (Float infinities and rounding are outside the
scope of these claims and are not modelled.) -/
abbrev FV := Option ℚ

/-- NaN-propagating addition. -/
def fadd : FV → FV → FV
  | some a, some b => some (a + b)
  | _, _ => none

/-- NaN-propagating subtraction. -/
def fsub : FV → FV → FV
  | some a, some b => some (a - b)
  | _, _ => none

/-- NaN-propagating multiplication. -/
def fmul : FV → FV → FV
  | some a, some b => some (a * b)
  | _, _ => none

/-- NaN-propagating division. -/
def fdiv : FV → FV → FV
  | some a, some b => some (a / b)
  | _, _ => none

/-- NaN-propagating negation. -/
def fneg : FV → FV
  | some a => some (-a)
  | none => none

/-- IEEE-style strict greater-than: false whenever an operand is NaN. -/
def fgt (x y : FV) : Bool :=
  match x, y with
  | some a, some b => decide (b < a)
  | _, _ => false

/-- IEEE-style strict less-than: false whenever an operand is NaN. -/
def flt (x y : FV) : Bool :=
  match x, y with
  | some a, some b => decide (a < b)
  | _, _ => false

/-- The math primitives over NaN-aware values (abstract: the claims only
need that they preserve NaN, which is assumed where required). -/
structure FPrims where
  pi : ℚ
  sin : FV → FV
  cos : FV → FV
  tan : FV → FV
  pow : FV → FV → FV
  sqrt : FV → FV

/-- `Coefficients::<f32>::from_params` over NaN-aware values
(src/coefficients.rs lines 84-293, same transcription as
`from_params32` with IEEE comparison semantics; frequencies are taken
directly as possibly-NaN values since a float `Hertz` can hold NaN). -/
def coeffs32FV (P : FPrims) (filter : FilterType FV)
    (fs f0 q_value : FV) : Coefficients FV :=
  let omega := fdiv (fmul (fmul (some 2) (some P.pi)) f0) fs
  match filter with
  | .singlePoleLowPassApprox =>
      let alpha := fdiv omega (fadd omega (some 1))
      { a1 := fsub alpha (some 1), a2 := some 0, b0 := alpha,
            b1 := some 0, b2 := some 0 }
  | .singlePoleLowPass =>
      let omega_t := P.tan (fdiv omega (some 2))
      let a0 := fadd (some 1) omega_t
      { a1 := fdiv (fsub omega_t (some 1)) a0, a2 := some 0,
            b0 := fdiv omega_t a0, b1 := fdiv omega_t a0, b2 := some 0 }
  | .lowPass =>
      let omega_s := P.sin omega
      let omega_c := P.cos omega
      let alpha := fdiv omega_s (fmul (some 2) q_value)
      let b0 := fmul (fsub (some 1) omega_c) (some 0.5)
      let b1 := fsub (some 1) omega_c
      let b2 := fmul (fsub (some 1) omega_c) (some 0.5)
      let a0 := fadd (some 1) alpha
      let a1 := fmul (some (-2)) omega_c
      let a2 := fsub (some 1) alpha
      { a1 := fdiv a1 a0, a2 := fdiv a2 a0, b0 := fdiv b0 a0,
            b1 := fdiv b1 a0, b2 := fdiv b2 a0 }
  | .highPass =>
      let omega_s := P.sin omega
      let omega_c := P.cos omega
      let alpha := fdiv omega_s (fmul (some 2) q_value)
      let b0 := fmul (fadd (some 1) omega_c) (some 0.5)
      let b1 := fneg (fadd (some 1) omega_c)
      let b2 := fmul (fadd (some 1) omega_c) (some 0.5)
      let a0 := fadd (some 1) alpha
      let a1 := fmul (some (-2)) omega_c
      let a2 := fsub (some 1) alpha
      { a1 := fdiv a1 a0, a2 := fdiv a2 a0, b0 := fdiv b0 a0,
            b1 := fdiv b1 a0, b2 := fdiv b2 a0 }
  | .bandPass =>
      let omega_s := P.sin omega
      let omega_c := P.cos omega
      let alpha := fdiv omega_s (fmul (some 2) q_value)
      let b0 := fdiv omega_s (some 2)
      let b1 := some 0
      let b2 := fneg (fdiv omega_s (some 2))
      let a0 := fadd (some 1) alpha
      let a1 := fmul (some (-2)) omega_c
      let a2 := fsub (some 1) alpha
      let d := fdiv (some 1) a0
      { a1 := fmul a1 d, a2 := fmul a2 d, b0 := fmul b0 d,
            b1 := fmul b1 d, b2 := fmul b2 d }
  | .notch =>
      let omega_s := P.sin omega
      let omega_c := P.cos omega
      let alpha := fdiv omega_s (fmul (some 2) q_value)
      let b0 := some 1
      let b1 := fmul (some (-2)) omega_c
      let b2 := some 1
      let a0 := fadd (some 1) alpha
      let a1 := fmul (some (-2)) omega_c
      let a2 := fsub (some 1) alpha
      { a1 := fdiv a1 a0, a2 := fdiv a2 a0, b0 := fdiv b0 a0,
            b1 := fdiv b1 a0, b2 := fdiv b2 a0 }
  | .allPass =>
      let omega_s := P.sin omega
      let omega_c := P.cos omega
      let alpha := fdiv omega_s (fmul (some 2) q_value)
      let b0 := fsub (some 1) alpha
      let b1 := fmul (some (-2)) omega_c
      let b2 := fadd (some 1) alpha
      let a0 := fadd (some 1) alpha
      let a1 := fmul (some (-2)) omega_c
      let a2 := fsub (some 1) alpha
      { a1 := fdiv a1 a0, a2 := fdiv a2 a0, b0 := fdiv b0 a0,
            b1 := fdiv b1 a0, b2 := fdiv b2 a0 }
  | .lowShelf db_gain =>
      let a := P.pow (some 10) (fdiv db_gain (some 40))
      let omega_s := P.sin omega
      let omega_c := P.cos omega
      let alpha := fdiv omega_s (fmul (some 2) q_value)
      let b0 := fmul a (fadd (fsub (fadd a (some 1)) (fmul (fsub a (some 1)) omega_c))
        (fmul (fmul (some 2) alpha) (P.sqrt a)))
      let b1 := fmul (fmul (some 2) a) (fsub (fsub a (some 1)) (fmul (fadd a (some 1)) omega_c))
      let b2 := fmul a (fsub (fsub (fadd a (some 1)) (fmul (fsub a (some 1)) omega_c))
        (fmul (fmul (some 2) alpha) (P.sqrt a)))
      let a0 := fadd (fadd (fadd a (some 1)) (fmul (fsub a (some 1)) omega_c))
        (fmul (fmul (some 2) alpha) (P.sqrt a))
      let a1 := fmul (some (-2)) (fadd (fsub a (some 1)) (fmul (fadd a (some 1)) omega_c))
      let a2 := fsub (fadd (fadd a (some 1)) (fmul (fsub a (some 1)) omega_c))
        (fmul (fmul (some 2) alpha) (P.sqrt a))
      { a1 := fdiv a1 a0, a2 := fdiv a2 a0, b0 := fdiv b0 a0,
            b1 := fdiv b1 a0, b2 := fdiv b2 a0 }
  | .highShelf db_gain =>
      let a := P.pow (some 10) (fdiv db_gain (some 40))
      let omega_s := P.sin omega
      let omega_c := P.cos omega
      let alpha := fdiv omega_s (fmul (some 2) q_value)
      let b0 := fmul a (fadd (fadd (fadd a (some 1)) (fmul (fsub a (some 1)) omega_c))
        (fmul (fmul (some 2) alpha) (P.sqrt a)))
      let b1 := fmul (fmul (some (-2)) a) (fadd (fsub a (some 1)) (fmul (fadd a (some 1)) omega_c))
      let b2 := fmul a (fsub (fadd (fadd a (some 1)) (fmul (fsub a (some 1)) omega_c))
        (fmul (fmul (some 2) alpha) (P.sqrt a)))
      let a0 := fadd (fsub (fadd a (some 1)) (fmul (fsub a (some 1)) omega_c))
        (fmul (fmul (some 2) alpha) (P.sqrt a))
      let a1 := fmul (some 2) (fsub (fsub a (some 1)) (fmul (fadd a (some 1)) omega_c))
      let a2 := fsub (fsub (fadd a (some 1)) (fmul (fsub a (some 1)) omega_c))
        (fmul (fmul (some 2) alpha) (P.sqrt a))
      { a1 := fdiv a1 a0, a2 := fdiv a2 a0, b0 := fdiv b0 a0,
            b1 := fdiv b1 a0, b2 := fdiv b2 a0 }
  | .peakingEQ db_gain =>
      let a := P.pow (some 10) (fdiv db_gain (some 40))
      let omega_s := P.sin omega
      let omega_c := P.cos omega
      let alpha := fdiv omega_s (fmul (some 2) q_value)
      let b0 := fadd (some 1) (fmul alpha a)
      let b1 := fmul (some (-2)) omega_c
      let b2 := fsub (some 1) (fmul alpha a)
      let a0 := fadd (some 1) (fdiv alpha a)
      let a1 := fmul (some (-2)) omega_c
      let a2 := fsub (some 1) (fdiv alpha a)
      { a1 := fdiv a1 a0, a2 := fdiv a2 a0, b0 := fdiv b0 a0,
            b1 := fdiv b1 a0, b2 := fdiv b2 a0 }

def from_params32FV (P : FPrims) (filter : FilterType FV)
    (fs f0 q_value : FV) : Except Errors (Coefficients FV) :=
  if fgt (fmul (some 2) f0) fs then .error .outsideNyquist
  else if flt q_value (some 0) then .error .negativeQ
  else .ok (coeffs32FV P filter fs f0 q_value)

/-- `Coefficients::<f64>::from_params` over NaN-aware values
(src/coefficients.rs lines 300-515; Notch listed before BandPass and the
reciprocal normalization in LowPass, HighPass, Notch, BandPass, exactly
as in the f64 source). -/
def coeffs64FV (P : FPrims) (filter : FilterType FV)
    (fs f0 q_value : FV) : Coefficients FV :=
  let omega := fdiv (fmul (fmul (some 2) (some P.pi)) f0) fs
  match filter with
  | .singlePoleLowPassApprox =>
      let alpha := fdiv omega (fadd omega (some 1))
      { a1 := fsub alpha (some 1), a2 := some 0, b0 := alpha,
            b1 := some 0, b2 := some 0 }
  | .singlePoleLowPass =>
      let omega_t := P.tan (fdiv omega (some 2))
      let a0 := fadd (some 1) omega_t
      { a1 := fdiv (fsub omega_t (some 1)) a0, a2 := some 0,
            b0 := fdiv omega_t a0, b1 := fdiv omega_t a0, b2 := some 0 }
  | .lowPass =>
      let omega_s := P.sin omega
      let omega_c := P.cos omega
      let alpha := fdiv omega_s (fmul (some 2) q_value)
      let b0 := fmul (fsub (some 1) omega_c) (some 0.5)
      let b1 := fsub (some 1) omega_c
      let b2 := fmul (fsub (some 1) omega_c) (some 0.5)
      let a0 := fadd (some 1) alpha
      let a1 := fmul (some (-2)) omega_c
      let a2 := fsub (some 1) alpha
      let d := fdiv (some 1) a0
      { a1 := fmul a1 d, a2 := fmul a2 d, b0 := fmul b0 d,
            b1 := fmul b1 d, b2 := fmul b2 d }
  | .highPass =>
      let omega_s := P.sin omega
      let omega_c := P.cos omega
      let alpha := fdiv omega_s (fmul (some 2) q_value)
      let b0 := fmul (fadd (some 1) omega_c) (some 0.5)
      let b1 := fneg (fadd (some 1) omega_c)
      let b2 := fmul (fadd (some 1) omega_c) (some 0.5)
      let a0 := fadd (some 1) alpha
      let a1 := fmul (some (-2)) omega_c
      let a2 := fsub (some 1) alpha
      let d := fdiv (some 1) a0
      { a1 := fmul a1 d, a2 := fmul a2 d, b0 := fmul b0 d,
            b1 := fmul b1 d, b2 := fmul b2 d }
  | .notch =>
      let omega_s := P.sin omega
      let omega_c := P.cos omega
      let alpha := fdiv omega_s (fmul (some 2) q_value)
      let b0 := some 1
      let b1 := fmul (some (-2)) omega_c
      let b2 := some 1
      let a0 := fadd (some 1) alpha
      let a1 := fmul (some (-2)) omega_c
      let a2 := fsub (some 1) alpha
      let d := fdiv (some 1) a0
      { a1 := fmul a1 d, a2 := fmul a2 d, b0 := fmul b0 d,
            b1 := fmul b1 d, b2 := fmul b2 d }
  | .bandPass =>
      let omega_s := P.sin omega
      let omega_c := P.cos omega
      let alpha := fdiv omega_s (fmul (some 2) q_value)
      let b0 := fdiv omega_s (some 2)
      let b1 := some 0
      let b2 := fneg (fdiv omega_s (some 2))
      let a0 := fadd (some 1) alpha
      let a1 := fmul (some (-2)) omega_c
      let a2 := fsub (some 1) alpha
      let d := fdiv (some 1) a0
      { a1 := fmul a1 d, a2 := fmul a2 d, b0 := fmul b0 d,
            b1 := fmul b1 d, b2 := fmul b2 d }
  | .allPass =>
      let omega_s := P.sin omega
      let omega_c := P.cos omega
      let alpha := fdiv omega_s (fmul (some 2) q_value)
      let b0 := fsub (some 1) alpha
      let b1 := fmul (some (-2)) omega_c
      let b2 := fadd (some 1) alpha
      let a0 := fadd (some 1) alpha
      let a1 := fmul (some (-2)) omega_c
      let a2 := fsub (some 1) alpha
      { a1 := fdiv a1 a0, a2 := fdiv a2 a0, b0 := fdiv b0 a0,
            b1 := fdiv b1 a0, b2 := fdiv b2 a0 }
  | .lowShelf db_gain =>
      let a := P.pow (some 10) (fdiv db_gain (some 40))
      let omega_s := P.sin omega
      let omega_c := P.cos omega
      let alpha := fdiv omega_s (fmul (some 2) q_value)
      let b0 := fmul a (fadd (fsub (fadd a (some 1)) (fmul (fsub a (some 1)) omega_c))
        (fmul (fmul (some 2) alpha) (P.sqrt a)))
      let b1 := fmul (fmul (some 2) a) (fsub (fsub a (some 1)) (fmul (fadd a (some 1)) omega_c))
      let b2 := fmul a (fsub (fsub (fadd a (some 1)) (fmul (fsub a (some 1)) omega_c))
        (fmul (fmul (some 2) alpha) (P.sqrt a)))
      let a0 := fadd (fadd (fadd a (some 1)) (fmul (fsub a (some 1)) omega_c))
        (fmul (fmul (some 2) alpha) (P.sqrt a))
      let a1 := fmul (some (-2)) (fadd (fsub a (some 1)) (fmul (fadd a (some 1)) omega_c))
      let a2 := fsub (fadd (fadd a (some 1)) (fmul (fsub a (some 1)) omega_c))
        (fmul (fmul (some 2) alpha) (P.sqrt a))
      { a1 := fdiv a1 a0, a2 := fdiv a2 a0, b0 := fdiv b0 a0,
            b1 := fdiv b1 a0, b2 := fdiv b2 a0 }
  | .highShelf db_gain =>
      let a := P.pow (some 10) (fdiv db_gain (some 40))
      let omega_s := P.sin omega
      let omega_c := P.cos omega
      let alpha := fdiv omega_s (fmul (some 2) q_value)
      let b0 := fmul a (fadd (fadd (fadd a (some 1)) (fmul (fsub a (some 1)) omega_c))
        (fmul (fmul (some 2) alpha) (P.sqrt a)))
      let b1 := fmul (fmul (some (-2)) a) (fadd (fsub a (some 1)) (fmul (fadd a (some 1)) omega_c))
      let b2 := fmul a (fsub (fadd (fadd a (some 1)) (fmul (fsub a (some 1)) omega_c))
        (fmul (fmul (some 2) alpha) (P.sqrt a)))
      let a0 := fadd (fsub (fadd a (some 1)) (fmul (fsub a (some 1)) omega_c))
        (fmul (fmul (some 2) alpha) (P.sqrt a))
      let a1 := fmul (some 2) (fsub (fsub a (some 1)) (fmul (fadd a (some 1)) omega_c))
      let a2 := fsub (fsub (fadd a (some 1)) (fmul (fsub a (some 1)) omega_c))
        (fmul (fmul (some 2) alpha) (P.sqrt a))
      { a1 := fdiv a1 a0, a2 := fdiv a2 a0, b0 := fdiv b0 a0,
            b1 := fdiv b1 a0, b2 := fdiv b2 a0 }
  | .peakingEQ db_gain =>
      let a := P.pow (some 10) (fdiv db_gain (some 40))
      let omega_s := P.sin omega
      let omega_c := P.cos omega
      let alpha := fdiv omega_s (fmul (some 2) q_value)
      let b0 := fadd (some 1) (fmul alpha a)
      let b1 := fmul (some (-2)) omega_c
      let b2 := fsub (some 1) (fmul alpha a)
      let a0 := fadd (some 1) (fdiv alpha a)
      let a1 := fmul (some (-2)) omega_c
      let a2 := fsub (some 1) (fdiv alpha a)
      { a1 := fdiv a1 a0, a2 := fdiv a2 a0, b0 := fdiv b0 a0,
            b1 := fdiv b1 a0, b2 := fdiv b2 a0 }

def from_params64FV (P : FPrims) (filter : FilterType FV)
    (fs f0 q_value : FV) : Except Errors (Coefficients FV) :=
  if fgt (fmul (some 2) f0) fs then .error .outsideNyquist
  else if flt q_value (some 0) then .error .negativeQ
  else .ok (coeffs64FV P filter fs f0 q_value)

/-- A NaN-preserving trivial primitive bundle for concrete instances. -/
def dummyFPrims : FPrims :=
  { pi := 3, sin := fun _ => none, cos := fun _ => none,
    tan := fun _ => none, pow := fun _ _ => none, sqrt := fun _ => none }

/-- Whether a selector's formula reads the Q parameter (all second-order
cookbook variants do; the two single-pole variants do not). -/
def FilterType.usesQ {G : Type} : FilterType G → Bool
  | .singlePoleLowPassApprox => false
  | .singlePoleLowPass => false
  | _ => true

/-- C2: at both precisions, from_params returns an error iff 2*f0 > fs or
q < 0; when 2*f0 > fs the error is OutsideNyquist regardless of q (the
Nyquist check runs first), otherwise when q < 0 it is NegativeQ; f0
exactly equal to fs/2 passes validation; and on the error path no formula
is evaluated (the error result does not depend on the math primitives). -/
theorem C2_validation_iff (P : MathPrims) (t : FilterType ℝ) (fs f0 : Hertz) (q : ℝ) :
    (2 * f0.hz > fs.hz →
      from_params32 P t fs f0 q = .error .outsideNyquist ∧
      from_params64 P t fs f0 q = .error .outsideNyquist) ∧
    (¬(2 * f0.hz > fs.hz) → q < 0 →
      from_params32 P t fs f0 q = .error .negativeQ ∧
      from_params64 P t fs f0 q = .error .negativeQ) ∧
    ((∃ e, from_params32 P t fs f0 q = .error e) ↔ 2 * f0.hz > fs.hz ∨ q < 0) ∧
    ((∃ e, from_params64 P t fs f0 q = .error e) ↔ 2 * f0.hz > fs.hz ∨ q < 0) ∧
    (2 * f0.hz = fs.hz → ¬(q < 0) →
      from_params32 P t fs f0 q = .ok (coeffs32 P t fs f0 q) ∧
      from_params64 P t fs f0 q = .ok (coeffs64 P t fs f0 q)) ∧
    (∀ e, from_params32 P t fs f0 q = .error e →
      ∀ P2, from_params32 P2 t fs f0 q = .error e) ∧
    (∀ e, from_params64 P t fs f0 q = .error e →
      ∀ P2, from_params64 P2 t fs f0 q = .error e) := by
  refine ⟨?_, ?_, ?_, ?_, ?_, ?_, ?_⟩
  · intro h1
    exact ⟨from_params32_nyquist P t fs f0 q h1, from_params64_nyquist P t fs f0 q h1⟩
  · intro h1 h2
    exact ⟨from_params32_negq P t fs f0 q h1 h2, from_params64_negq P t fs f0 q h1 h2⟩
  · constructor
    · rintro ⟨e, he⟩
      by_contra hcon
      push_neg at hcon
      rw [from_params32_ok P t fs f0 q (not_lt.mpr hcon.1) (not_lt.mpr hcon.2)] at he
      exact Except.noConfusion he
    · intro h
      by_cases h1 : 2 * f0.hz > fs.hz
      · exact ⟨.outsideNyquist, from_params32_nyquist P t fs f0 q h1⟩
      · rcases h with h | h2
        · exact absurd h h1
        · exact ⟨.negativeQ, from_params32_negq P t fs f0 q h1 h2⟩
  · constructor
    · rintro ⟨e, he⟩
      by_contra hcon
      push_neg at hcon
      rw [from_params64_ok P t fs f0 q (not_lt.mpr hcon.1) (not_lt.mpr hcon.2)] at he
      exact Except.noConfusion he
    · intro h
      by_cases h1 : 2 * f0.hz > fs.hz
      · exact ⟨.outsideNyquist, from_params64_nyquist P t fs f0 q h1⟩
      · rcases h with h | h2
        · exact absurd h h1
        · exact ⟨.negativeQ, from_params64_negq P t fs f0 q h1 h2⟩
  · intro heq hq
    have h1 : ¬(2 * f0.hz > fs.hz) := not_lt.mpr (le_of_eq heq)
    exact ⟨from_params32_ok P t fs f0 q h1 hq, from_params64_ok P t fs f0 q h1 hq⟩
  · intro e he P2
    by_cases h1 : 2 * f0.hz > fs.hz
    · rw [from_params32_nyquist P t fs f0 q h1] at he
      injection he with h
      rw [← h]
      exact from_params32_nyquist P2 t fs f0 q h1
    · by_cases h2 : q < 0
      · rw [from_params32_negq P t fs f0 q h1 h2] at he
        injection he with h
        rw [← h]
        exact from_params32_negq P2 t fs f0 q h1 h2
      · rw [from_params32_ok P t fs f0 q h1 h2] at he
        exact Except.noConfusion he
  · intro e he P2
    by_cases h1 : 2 * f0.hz > fs.hz
    · rw [from_params64_nyquist P t fs f0 q h1] at he
      injection he with h
      rw [← h]
      exact from_params64_nyquist P2 t fs f0 q h1
    · by_cases h2 : q < 0
      · rw [from_params64_negq P t fs f0 q h1 h2] at he
        injection he with h
        rw [← h]
        exact from_params64_negq P2 t fs f0 q h1 h2
      · rw [from_params64_ok P t fs f0 q h1 h2] at he
        exact Except.noConfusion he

/-- Witness for C2 at fs = 1000, f0 = 600, q = 1: OutsideNyquist. -/
theorem C2_validation_iff_witness :
    from_params32 dummyPrims .lowPass ⟨1000, by norm_num⟩ ⟨600, by norm_num⟩ 1
      = .error .outsideNyquist :=
  ((C2_validation_iff dummyPrims .lowPass ⟨1000, by norm_num⟩ ⟨600, by norm_num⟩ 1).1
    (by norm_num)).1

/-- C3 counterexample: at fs = 1000, f0 = 500 the cutoff is at half the
sampling frequency (2*f0 >= fs), yet both instantiations succeed rather
than failing with OutsideNyquist: the source's Nyquist check is strict. -/
theorem C3_counterexample :
    2 * (500:ℝ) ≥ 1000 ∧
    from_params32 dummyPrims .lowPass ⟨1000, by norm_num⟩ ⟨500, by norm_num⟩ 1
      ≠ .error .outsideNyquist ∧
    from_params64 dummyPrims .lowPass ⟨1000, by norm_num⟩ ⟨500, by norm_num⟩ 1
      ≠ .error .outsideNyquist := by
  refine ⟨by norm_num, ?_, ?_⟩
  · rw [from_params32_ok dummyPrims .lowPass _ _ _ (by norm_num) (by norm_num)]
    exact fun h => Except.noConfusion h
  · rw [from_params64_ok dummyPrims .lowPass _ _ _ (by norm_num) (by norm_num)]
    exact fun h => Except.noConfusion h

/-- C3 amended: from_params fails with OutsideNyquist exactly when the
requested frequency is strictly above half the sampling frequency
(2*f0 > fs); at 2*f0 = fs the Nyquist check passes. -/
theorem C3_nyquist_strict (P : MathPrims) (t : FilterType ℝ) (fs f0 : Hertz) (q : ℝ) :
    (2 * f0.hz > fs.hz →
      from_params32 P t fs f0 q = .error .outsideNyquist ∧
      from_params64 P t fs f0 q = .error .outsideNyquist) ∧
    (from_params32 P t fs f0 q = .error .outsideNyquist → 2 * f0.hz > fs.hz) ∧
    (from_params64 P t fs f0 q = .error .outsideNyquist → 2 * f0.hz > fs.hz) := by
  refine ⟨?_, ?_, ?_⟩
  · intro h1
    exact ⟨from_params32_nyquist P t fs f0 q h1, from_params64_nyquist P t fs f0 q h1⟩
  · intro he
    by_contra h1
    by_cases h2 : q < 0
    · rw [from_params32_negq P t fs f0 q h1 h2] at he
      injection he with h
      exact Errors.noConfusion h
    · rw [from_params32_ok P t fs f0 q h1 h2] at he
      exact Except.noConfusion he
  · intro he
    by_contra h1
    by_cases h2 : q < 0
    · rw [from_params64_negq P t fs f0 q h1 h2] at he
      injection he with h
      exact Errors.noConfusion h
    · rw [from_params64_ok P t fs f0 q h1 h2] at he
      exact Except.noConfusion he

/-- Witness for C3 amended at fs = 1000, f0 = 600, q = 1. -/
theorem C3_nyquist_strict_witness :
    from_params64 dummyPrims .highPass ⟨1000, by norm_num⟩ ⟨600, by norm_num⟩ 1
      = .error .outsideNyquist :=
  ((C3_nyquist_strict dummyPrims .highPass ⟨1000, by norm_num⟩ ⟨600, by norm_num⟩ 1).1
    (by norm_num)).2

/-- C4: with the Nyquist check passing, q = 0 is accepted at both
precisions (a success outcome with a defined coefficient set), while any
q < 0 fails with NegativeQ. -/
theorem C4_q_boundary (P : MathPrims) (t : FilterType ℝ) (fs f0 : Hertz) (q : ℝ)
    (hN : ¬(2 * f0.hz > fs.hz)) :
    from_params32 P t fs f0 0 = .ok (coeffs32 P t fs f0 0) ∧
    from_params64 P t fs f0 0 = .ok (coeffs64 P t fs f0 0) ∧
    (q < 0 → from_params32 P t fs f0 q = .error .negativeQ ∧
             from_params64 P t fs f0 q = .error .negativeQ) :=
  ⟨from_params32_ok P t fs f0 0 hN (by norm_num),
   from_params64_ok P t fs f0 0 hN (by norm_num),
   fun hq => ⟨from_params32_negq P t fs f0 q hN hq,
              from_params64_negq P t fs f0 q hN hq⟩⟩

/-- Witness for C4 at fs = 1000, f0 = 100, q = -0.001. -/
theorem C4_q_boundary_witness :
    from_params32 dummyPrims .lowPass ⟨1000, by norm_num⟩ ⟨100, by norm_num⟩ (-0.001)
      = .error .negativeQ :=
  ((C4_q_boundary dummyPrims .lowPass ⟨1000, by norm_num⟩ ⟨100, by norm_num⟩ (-0.001)
    (by norm_num)).2.2 (by norm_num)).1

/-- C5: for every validated input, the SinglePoleLowPassApprox selector
returns exactly a1 = alpha - 1, a2 = 0, b0 = alpha, b1 = 0, b2 = 0 with
alpha = omega/(omega+1), omega = 2*pi*f0/fs, at both precisions; the
result is independent of q and of every primitive other than the PI
constant, and the computed expressions contain no transcendental call. -/
theorem C5_single_pole_approx (P Q2 : MathPrims) (fs f0 : Hertz) (q q2 : ℝ)
    (hN : ¬(2 * f0.hz > fs.hz)) (hq : ¬(q < 0)) (hq2 : ¬(q2 < 0))
    (hpi : Q2.pi = P.pi) :
    from_params32 P .singlePoleLowPassApprox fs f0 q =
      .ok { a1 := 2 * P.pi * f0.hz / fs.hz / (2 * P.pi * f0.hz / fs.hz + 1) - 1,
            a2 := 0,
            b0 := 2 * P.pi * f0.hz / fs.hz / (2 * P.pi * f0.hz / fs.hz + 1),
            b1 := 0, b2 := 0 } ∧
    from_params64 P .singlePoleLowPassApprox fs f0 q =
      .ok { a1 := 2 * P.pi * f0.hz / fs.hz / (2 * P.pi * f0.hz / fs.hz + 1) - 1,
            a2 := 0,
            b0 := 2 * P.pi * f0.hz / fs.hz / (2 * P.pi * f0.hz / fs.hz + 1),
            b1 := 0, b2 := 0 } ∧
    from_params32 P .singlePoleLowPassApprox fs f0 q =
      from_params32 P .singlePoleLowPassApprox fs f0 q2 ∧
    from_params64 P .singlePoleLowPassApprox fs f0 q =
      from_params64 P .singlePoleLowPassApprox fs f0 q2 ∧
    from_params32 Q2 .singlePoleLowPassApprox fs f0 q =
      from_params32 P .singlePoleLowPassApprox fs f0 q ∧
    from_params64 Q2 .singlePoleLowPassApprox fs f0 q =
      from_params64 P .singlePoleLowPassApprox fs f0 q ∧
    (exprCoeffs32 .singlePoleLowPassApprox).usesTransc = false ∧
    (exprCoeffs64 .singlePoleLowPassApprox).usesTransc = false := by
  refine ⟨?_, ?_, ?_, ?_, ?_, ?_, rfl, rfl⟩
  · rw [from_params32_ok P _ fs f0 q hN hq]
    rfl
  · rw [from_params64_ok P _ fs f0 q hN hq]
    rfl
  · rw [from_params32_ok P _ fs f0 q hN hq, from_params32_ok P _ fs f0 q2 hN hq2]
    rfl
  · rw [from_params64_ok P _ fs f0 q hN hq, from_params64_ok P _ fs f0 q2 hN hq2]
    rfl
  · rw [from_params32_ok Q2 _ fs f0 q hN hq, from_params32_ok P _ fs f0 q hN hq]
    simp only [coeffs32, hpi]
  · rw [from_params64_ok Q2 _ fs f0 q hN hq, from_params64_ok P _ fs f0 q hN hq]
    simp only [coeffs64, hpi]

/-- Witness for C5 at fs = 1000, f0 = 100, q = 1, q2 = 2. -/
theorem C5_single_pole_approx_witness :
    from_params32 dummyPrims .singlePoleLowPassApprox
        ⟨1000, by norm_num⟩ ⟨100, by norm_num⟩ 1 =
      .ok { a1 := 2 * dummyPrims.pi * 100 / 1000 / (2 * dummyPrims.pi * 100 / 1000 + 1) - 1,
            a2 := 0,
            b0 := 2 * dummyPrims.pi * 100 / 1000 / (2 * dummyPrims.pi * 100 / 1000 + 1),
            b1 := 0, b2 := 0 } :=
  (C5_single_pole_approx dummyPrims dummyPrims ⟨1000, by norm_num⟩ ⟨100, by norm_num⟩
    1 2 (by norm_num) (by norm_num) (by norm_num) rfl).1

/-- C6: for every validated input, the SinglePoleLowPass selector returns
exactly a1 = (omega_t - 1)/a0, a2 = 0, b0 = b1 = omega_t/a0, b2 = 0, with
omega_t = tan(omega/2), a0 = 1 + omega_t, omega = 2*pi*f0/fs, at both
precisions, and the result is independent of q. -/
theorem C6_single_pole_exact (P : MathPrims) (fs f0 : Hertz) (q q2 : ℝ)
    (hN : ¬(2 * f0.hz > fs.hz)) (hq : ¬(q < 0)) (hq2 : ¬(q2 < 0)) :
    from_params32 P .singlePoleLowPass fs f0 q =
      .ok { a1 := (P.tan (2 * P.pi * f0.hz / fs.hz / 2) - 1) /
                    (1 + P.tan (2 * P.pi * f0.hz / fs.hz / 2)),
            a2 := 0,
            b0 := P.tan (2 * P.pi * f0.hz / fs.hz / 2) /
                    (1 + P.tan (2 * P.pi * f0.hz / fs.hz / 2)),
            b1 := P.tan (2 * P.pi * f0.hz / fs.hz / 2) /
                    (1 + P.tan (2 * P.pi * f0.hz / fs.hz / 2)),
            b2 := 0 } ∧
    from_params64 P .singlePoleLowPass fs f0 q =
      .ok { a1 := (P.tan (2 * P.pi * f0.hz / fs.hz / 2) - 1) /
                    (1 + P.tan (2 * P.pi * f0.hz / fs.hz / 2)),
            a2 := 0,
            b0 := P.tan (2 * P.pi * f0.hz / fs.hz / 2) /
                    (1 + P.tan (2 * P.pi * f0.hz / fs.hz / 2)),
            b1 := P.tan (2 * P.pi * f0.hz / fs.hz / 2) /
                    (1 + P.tan (2 * P.pi * f0.hz / fs.hz / 2)),
            b2 := 0 } ∧
    from_params32 P .singlePoleLowPass fs f0 q =
      from_params32 P .singlePoleLowPass fs f0 q2 ∧
    from_params64 P .singlePoleLowPass fs f0 q =
      from_params64 P .singlePoleLowPass fs f0 q2 := by
  refine ⟨?_, ?_, ?_, ?_⟩
  · rw [from_params32_ok P _ fs f0 q hN hq]
    rfl
  · rw [from_params64_ok P _ fs f0 q hN hq]
    rfl
  · rw [from_params32_ok P _ fs f0 q hN hq, from_params32_ok P _ fs f0 q2 hN hq2]
    rfl
  · rw [from_params64_ok P _ fs f0 q hN hq, from_params64_ok P _ fs f0 q2 hN hq2]
    rfl

/-- Witness for C6 at fs = 1000, f0 = 100, q = 1, q2 = 2. -/
theorem C6_single_pole_exact_witness :
    from_params64 dummyPrims .singlePoleLowPass
        ⟨1000, by norm_num⟩ ⟨100, by norm_num⟩ 1 =
      .ok { a1 := (dummyPrims.tan (2 * dummyPrims.pi * 100 / 1000 / 2) - 1) /
                    (1 + dummyPrims.tan (2 * dummyPrims.pi * 100 / 1000 / 2)),
            a2 := 0,
            b0 := dummyPrims.tan (2 * dummyPrims.pi * 100 / 1000 / 2) /
                    (1 + dummyPrims.tan (2 * dummyPrims.pi * 100 / 1000 / 2)),
            b1 := dummyPrims.tan (2 * dummyPrims.pi * 100 / 1000 / 2) /
                    (1 + dummyPrims.tan (2 * dummyPrims.pi * 100 / 1000 / 2)),
            b2 := 0 } :=
  (C6_single_pole_exact dummyPrims ⟨1000, by norm_num⟩ ⟨100, by norm_num⟩ 1 2
    (by norm_num) (by norm_num) (by norm_num)).2.1

/-- C7: for every validated AllPass derivation with pre-normalization
a0 = 1 + alpha nonzero, at both precisions the numerator is the reverse
of the denominator: b0 = a2, b1 = a1, b2 = 1. -/
theorem C7_allpass_symmetry (P : MathPrims) (fs f0 : Hertz) (q : ℝ)
    (hN : ¬(2 * f0.hz > fs.hz)) (hq : ¬(q < 0))
    (h0 : 1 + P.sin (2 * P.pi * f0.hz / fs.hz) / (2 * q) ≠ 0) :
    from_params32 P .allPass fs f0 q = .ok (coeffs32 P .allPass fs f0 q) ∧
    (coeffs32 P .allPass fs f0 q).b0 = (coeffs32 P .allPass fs f0 q).a2 ∧
    (coeffs32 P .allPass fs f0 q).b1 = (coeffs32 P .allPass fs f0 q).a1 ∧
    (coeffs32 P .allPass fs f0 q).b2 = 1 ∧
    from_params64 P .allPass fs f0 q = .ok (coeffs64 P .allPass fs f0 q) ∧
    (coeffs64 P .allPass fs f0 q).b0 = (coeffs64 P .allPass fs f0 q).a2 ∧
    (coeffs64 P .allPass fs f0 q).b1 = (coeffs64 P .allPass fs f0 q).a1 ∧
    (coeffs64 P .allPass fs f0 q).b2 = 1 := by
  have hb2 : (coeffs32 P .allPass fs f0 q).b2 =
      (1 + P.sin (2 * P.pi * f0.hz / fs.hz) / (2 * q)) /
        (1 + P.sin (2 * P.pi * f0.hz / fs.hz) / (2 * q)) := rfl
  have hb2' : (coeffs64 P .allPass fs f0 q).b2 =
      (1 + P.sin (2 * P.pi * f0.hz / fs.hz) / (2 * q)) /
        (1 + P.sin (2 * P.pi * f0.hz / fs.hz) / (2 * q)) := rfl
  exact ⟨from_params32_ok P _ fs f0 q hN hq, rfl, rfl, hb2.trans (div_self h0),
         from_params64_ok P _ fs f0 q hN hq, rfl, rfl, hb2'.trans (div_self h0)⟩

/-- Witness for C7 at fs = 1000, f0 = 100, q = 1 with the trivial
primitives (whose sine is identically 0, so a0 = 1). -/
theorem C7_allpass_symmetry_witness :
    (coeffs32 dummyPrims .allPass ⟨1000, by norm_num⟩ ⟨100, by norm_num⟩ 1).b2 = 1 :=
  (C7_allpass_symmetry dummyPrims ⟨1000, by norm_num⟩ ⟨100, by norm_num⟩ 1
    (by norm_num) (by norm_num) (by simp [dummyPrims])).2.2.2.1

theorem sin_omega_nonneg (fs f0 : Hertz) (hN : ¬(2 * f0.hz > fs.hz)) :
    0 ≤ Real.sin (2 * Real.pi * f0.hz / fs.hz) := by
  rcases eq_or_lt_of_le fs.hz_nonneg with h | h
  · rw [← h, div_zero, Real.sin_zero]
  · apply Real.sin_nonneg_of_nonneg_of_le_pi
    · exact div_nonneg (mul_nonneg (by positivity) f0.hz_nonneg) (le_of_lt h)
    · rw [div_le_iff₀ h]
      have h2 : 2 * f0.hz ≤ fs.hz := not_lt.mp hN
      nlinarith [Real.pi_pos]

/-- C8: with the ideal real primitives, PeakingEQ with gain 0 dB at any
validated fs, f0 and q > 0 yields the identity transfer function: the
linear gain A = 10^(0/40) is 1, and the returned set satisfies b0 = 1,
b1 = a1 and b2 = a2, at both precisions. -/
theorem C8_peaking_unity (fs f0 : Hertz) (q : ℝ)
    (hN : ¬(2 * f0.hz > fs.hz)) (hq : 0 < q) :
    from_params32 realPrims (.peakingEQ 0) fs f0 q =
      .ok (coeffs32 realPrims (.peakingEQ 0) fs f0 q) ∧
    (coeffs32 realPrims (.peakingEQ 0) fs f0 q).b0 = 1 ∧
    (coeffs32 realPrims (.peakingEQ 0) fs f0 q).b1 =
      (coeffs32 realPrims (.peakingEQ 0) fs f0 q).a1 ∧
    (coeffs32 realPrims (.peakingEQ 0) fs f0 q).b2 =
      (coeffs32 realPrims (.peakingEQ 0) fs f0 q).a2 ∧
    from_params64 realPrims (.peakingEQ 0) fs f0 q =
      .ok (coeffs64 realPrims (.peakingEQ 0) fs f0 q) ∧
    (coeffs64 realPrims (.peakingEQ 0) fs f0 q).b0 = 1 ∧
    (coeffs64 realPrims (.peakingEQ 0) fs f0 q).b1 =
      (coeffs64 realPrims (.peakingEQ 0) fs f0 q).a1 ∧
    (coeffs64 realPrims (.peakingEQ 0) fs f0 q).b2 =
      (coeffs64 realPrims (.peakingEQ 0) fs f0 q).a2 := by
  have hA : realPrims.pow 10 ((0:ℝ) / 40) = 1 := by
    show (10:ℝ) ^ ((0:ℝ) / 40) = 1
    rw [zero_div, Real.rpow_zero]
  have hs := sin_omega_nonneg fs f0 hN
  have halpha : 0 ≤ Real.sin (2 * Real.pi * f0.hz / fs.hz) / (2 * q) :=
    div_nonneg hs (by linarith)
  have ha0 : 1 + Real.sin (2 * Real.pi * f0.hz / fs.hz) / (2 * q) ≠ 0 := by
    intro hcon
    linarith
  have hpi : realPrims.pi = Real.pi := rfl
  have hsin : ∀ x, realPrims.sin x = Real.sin x := fun _ => rfl
  have hb0 : (coeffs32 realPrims (.peakingEQ 0) fs f0 q).b0 =
      (1 + Real.sin (2 * Real.pi * f0.hz / fs.hz) / (2 * q) * realPrims.pow 10 ((0:ℝ)/40)) /
        (1 + Real.sin (2 * Real.pi * f0.hz / fs.hz) / (2 * q) / realPrims.pow 10 ((0:ℝ)/40)) := rfl
  have hb2 : (coeffs32 realPrims (.peakingEQ 0) fs f0 q).b2 =
      (1 - Real.sin (2 * Real.pi * f0.hz / fs.hz) / (2 * q) * realPrims.pow 10 ((0:ℝ)/40)) /
        (1 + Real.sin (2 * Real.pi * f0.hz / fs.hz) / (2 * q) / realPrims.pow 10 ((0:ℝ)/40)) := rfl
  have ha2 : (coeffs32 realPrims (.peakingEQ 0) fs f0 q).a2 =
      (1 - Real.sin (2 * Real.pi * f0.hz / fs.hz) / (2 * q) / realPrims.pow 10 ((0:ℝ)/40)) /
        (1 + Real.sin (2 * Real.pi * f0.hz / fs.hz) / (2 * q) / realPrims.pow 10 ((0:ℝ)/40)) := rfl
  have h64 : coeffs64 realPrims (.peakingEQ 0) fs f0 q =
      coeffs32 realPrims (.peakingEQ 0) fs f0 q := rfl
  refine ⟨from_params32_ok _ _ _ _ _ hN (not_lt.mpr (le_of_lt hq)), ?_, rfl, ?_,
          from_params64_ok _ _ _ _ _ hN (not_lt.mpr (le_of_lt hq)), ?_, ?_, ?_⟩
  · rw [hb0, hA, mul_one, div_one]
    exact div_self ha0
  · rw [hb2, ha2, hA, mul_one, div_one]
  · rw [h64, hb0, hA, mul_one, div_one]
    exact div_self ha0
  · rw [h64]
    rfl
  · rw [h64, hb2, ha2, hA, mul_one, div_one]

/-- Witness for C8 at fs = 1000, f0 = 100, q = 1. -/
theorem C8_peaking_unity_witness :
    (coeffs32 realPrims (.peakingEQ 0) ⟨1000, by norm_num⟩ ⟨100, by norm_num⟩ 1).b0 = 1 :=
  (C8_peaking_unity ⟨1000, by norm_num⟩ ⟨100, by norm_num⟩ 1
    (by norm_num) (by norm_num)).2.1

theorem recipNorm_eval (P : MathPrims) (vfs vf0 vq vg : ℝ) (r : RawCoeffs Expr) :
    (recipNorm r).map (Expr.eval P vfs vf0 vq vg) =
      (divNorm r).map (Expr.eval P vfs vf0 vq vg) := by
  simp [recipNorm, divNorm, Coefficients.map, Expr.eval, ← div_eq_mul_inv]

theorem divNorm_eval_congr (P : MathPrims) (vfs vf0 vq vg : ℝ)
    (r r2 : RawCoeffs Expr)
    (h : r.map (Expr.eval P vfs vf0 vq vg) = r2.map (Expr.eval P vfs vf0 vq vg)) :
    (divNorm r).map (Expr.eval P vfs vf0 vq vg) =
      (divNorm r2).map (Expr.eval P vfs vf0 vq vg) := by
  have hb0 : Expr.eval P vfs vf0 vq vg r.b0 = Expr.eval P vfs vf0 vq vg r2.b0 :=
    congrArg RawCoeffs.b0 h
  have hb1 : Expr.eval P vfs vf0 vq vg r.b1 = Expr.eval P vfs vf0 vq vg r2.b1 :=
    congrArg RawCoeffs.b1 h
  have hb2 : Expr.eval P vfs vf0 vq vg r.b2 = Expr.eval P vfs vf0 vq vg r2.b2 :=
    congrArg RawCoeffs.b2 h
  have ha0 : Expr.eval P vfs vf0 vq vg r.a0 = Expr.eval P vfs vf0 vq vg r2.a0 :=
    congrArg RawCoeffs.a0 h
  have ha1 : Expr.eval P vfs vf0 vq vg r.a1 = Expr.eval P vfs vf0 vq vg r2.a1 :=
    congrArg RawCoeffs.a1 h
  have ha2 : Expr.eval P vfs vf0 vq vg r.a2 = Expr.eval P vfs vf0 vq vg r2.a2 :=
    congrArg RawCoeffs.a2 h
  simp [divNorm, Coefficients.map, Expr.eval, hb0, hb1, hb2, ha0, ha1, ha2]

theorem raw32_spec_eval (P : MathPrims) (vfs vf0 vq vg : ℝ) (so : SecondOrder) :
    (raw32 so).map (Expr.eval P vfs vf0 vq vg) =
      (specRaw so).map (Expr.eval P vfs vf0 vq vg) := by
  cases so
  case lowPass =>
    simp only [raw32, specRaw, RawCoeffs.map, RawCoeffs.mk.injEq, Expr.eval]
    norm_num
    ring
  case highPass =>
    simp only [raw32, specRaw, RawCoeffs.map, RawCoeffs.mk.injEq, Expr.eval]
    norm_num
    ring
  case bandPass => rfl
  case notch => rfl
  case allPass => rfl
  case lowShelf => rfl
  case highShelf => rfl
  case peakingEQ => rfl

/-- C1 counterexample: in the f32 instantiation the BandPass coefficients
are not floating-point quotients by a0: the head operation of the
returned b0 is a multiplication (by the precomputed reciprocal
`1.0 / a0`), and the whole coefficient set is the reciprocal-normalized,
not the division-normalized, form of the raw row. -/
theorem C1_counterexample :
    (exprCoeffs32 .bandPass).b0.isDivNode = false ∧
    exprCoeffs32 .bandPass = recipNorm (raw32 .bandPass) ∧
    exprCoeffs32 .bandPass ≠ divNorm (raw32 .bandPass) := by
  refine ⟨rfl, rfl, ?_⟩
  decide

/-- C1 amended: every returned coefficient equals (exactly, over the
reals) the raw cookbook-table entry of the spec divided by that row's
a0, but the floating-point arrangement is division by a0 only for the
f32 variants other than BandPass and for the f64 variants other than
LowPass, HighPass, BandPass and Notch; those exceptions multiply by the
precomputed reciprocal 1/a0 instead. The raw rows themselves agree with
the spec's table at both precisions. -/
theorem C1_cookbook_table (P : MathPrims) (vfs vf0 vq vg : ℝ) :
    (∀ so : SecondOrder, so ≠ .bandPass →
      exprCoeffs32 so.shape = divNorm (raw32 so)) ∧
    exprCoeffs32 SecondOrder.bandPass.shape = recipNorm (raw32 .bandPass) ∧
    (exprCoeffs64 SecondOrder.lowPass.shape = recipNorm (raw64 .lowPass) ∧
     exprCoeffs64 SecondOrder.highPass.shape = recipNorm (raw64 .highPass) ∧
     exprCoeffs64 SecondOrder.bandPass.shape = recipNorm (raw64 .bandPass) ∧
     exprCoeffs64 SecondOrder.notch.shape = recipNorm (raw64 .notch)) ∧
    (exprCoeffs64 SecondOrder.allPass.shape = divNorm (raw64 .allPass) ∧
     exprCoeffs64 SecondOrder.lowShelf.shape = divNorm (raw64 .lowShelf) ∧
     exprCoeffs64 SecondOrder.highShelf.shape = divNorm (raw64 .highShelf) ∧
     exprCoeffs64 SecondOrder.peakingEQ.shape = divNorm (raw64 .peakingEQ)) ∧
    (∀ so : SecondOrder, raw64 so = raw32 so) ∧
    (∀ so : SecondOrder, (raw32 so).map (Expr.eval P vfs vf0 vq vg) =
      (specRaw so).map (Expr.eval P vfs vf0 vq vg)) ∧
    (∀ so : SecondOrder, (exprCoeffs32 so.shape).map (Expr.eval P vfs vf0 vq vg) =
      (divNorm (specRaw so)).map (Expr.eval P vfs vf0 vq vg)) ∧
    (∀ so : SecondOrder, (exprCoeffs64 so.shape).map (Expr.eval P vfs vf0 vq vg) =
      (divNorm (specRaw so)).map (Expr.eval P vfs vf0 vq vg)) := by
  refine ⟨?_, rfl, ⟨rfl, rfl, rfl, rfl⟩, ⟨rfl, rfl, rfl, rfl⟩, ?_, ?_, ?_, ?_⟩
  · intro so h
    cases so
    case lowPass => rfl
    case highPass => rfl
    case bandPass => exact absurd rfl h
    case notch => rfl
    case allPass => rfl
    case lowShelf => rfl
    case highShelf => rfl
    case peakingEQ => rfl
  · intro so
    cases so <;> rfl
  · exact raw32_spec_eval P vfs vf0 vq vg
  · intro so
    cases so
    case lowPass =>
      exact divNorm_eval_congr P vfs vf0 vq vg _ _ (raw32_spec_eval P vfs vf0 vq vg .lowPass)
    case highPass =>
      exact divNorm_eval_congr P vfs vf0 vq vg _ _ (raw32_spec_eval P vfs vf0 vq vg .highPass)
    case bandPass =>
      exact (recipNorm_eval P vfs vf0 vq vg (raw32 .bandPass)).trans
        (divNorm_eval_congr P vfs vf0 vq vg _ _ (raw32_spec_eval P vfs vf0 vq vg .bandPass))
    case notch =>
      exact divNorm_eval_congr P vfs vf0 vq vg _ _ (raw32_spec_eval P vfs vf0 vq vg .notch)
    case allPass =>
      exact divNorm_eval_congr P vfs vf0 vq vg _ _ (raw32_spec_eval P vfs vf0 vq vg .allPass)
    case lowShelf =>
      exact divNorm_eval_congr P vfs vf0 vq vg _ _ (raw32_spec_eval P vfs vf0 vq vg .lowShelf)
    case highShelf =>
      exact divNorm_eval_congr P vfs vf0 vq vg _ _ (raw32_spec_eval P vfs vf0 vq vg .highShelf)
    case peakingEQ =>
      exact divNorm_eval_congr P vfs vf0 vq vg _ _ (raw32_spec_eval P vfs vf0 vq vg .peakingEQ)
  · intro so
    cases so
    case lowPass =>
      exact (recipNorm_eval P vfs vf0 vq vg (raw32 .lowPass)).trans
        (divNorm_eval_congr P vfs vf0 vq vg _ _ (raw32_spec_eval P vfs vf0 vq vg .lowPass))
    case highPass =>
      exact (recipNorm_eval P vfs vf0 vq vg (raw32 .highPass)).trans
        (divNorm_eval_congr P vfs vf0 vq vg _ _ (raw32_spec_eval P vfs vf0 vq vg .highPass))
    case bandPass =>
      exact (recipNorm_eval P vfs vf0 vq vg (raw32 .bandPass)).trans
        (divNorm_eval_congr P vfs vf0 vq vg _ _ (raw32_spec_eval P vfs vf0 vq vg .bandPass))
    case notch =>
      exact (recipNorm_eval P vfs vf0 vq vg (raw32 .notch)).trans
        (divNorm_eval_congr P vfs vf0 vq vg _ _ (raw32_spec_eval P vfs vf0 vq vg .notch))
    case allPass =>
      exact divNorm_eval_congr P vfs vf0 vq vg _ _ (raw32_spec_eval P vfs vf0 vq vg .allPass)
    case lowShelf =>
      exact divNorm_eval_congr P vfs vf0 vq vg _ _ (raw32_spec_eval P vfs vf0 vq vg .lowShelf)
    case highShelf =>
      exact divNorm_eval_congr P vfs vf0 vq vg _ _ (raw32_spec_eval P vfs vf0 vq vg .highShelf)
    case peakingEQ =>
      exact divNorm_eval_congr P vfs vf0 vq vg _ _ (raw32_spec_eval P vfs vf0 vq vg .peakingEQ)

/-- Witness for C1 amended at the LowPass variant. -/
theorem C1_cookbook_table_witness :
    exprCoeffs32 SecondOrder.lowPass.shape = divNorm (raw32 SecondOrder.lowPass) :=
  (C1_cookbook_table dummyPrims 0 0 0 0).1 SecondOrder.lowPass (by decide)

theorem coeffs32_eq_coeffs64 (P : MathPrims) (t : FilterType ℝ)
    (fs f0 : Hertz) (q : ℝ) : coeffs32 P t fs f0 q = coeffs64 P t fs f0 q := by
  cases t
  case singlePoleLowPassApprox => rfl
  case singlePoleLowPass => rfl
  case lowPass =>
    simp only [coeffs32, coeffs64, Coefficients.mk.injEq, mul_one_div]
  case highPass =>
    simp only [coeffs32, coeffs64, Coefficients.mk.injEq, mul_one_div]
  case bandPass => rfl
  case notch =>
    simp only [coeffs32, coeffs64, Coefficients.mk.injEq, mul_one_div]
  case allPass => rfl
  case lowShelf g => rfl
  case highShelf g => rfl
  case peakingEQ g => rfl

/-- C9 counterexample: the two precision instantiations do not share the
same arrangement of operations at the LowPass variant: the f32 code
divides each coefficient by a0 while the f64 code multiplies by the
precomputed reciprocal 1/a0, so the expression trees differ (and the
head operation of the f64 b0 is not a division). -/
theorem C9_counterexample :
    exprCoeffs32 .lowPass ≠ exprCoeffs64 .lowPass ∧
    (exprCoeffs32 .lowPass).b0.isDivNode = true ∧
    (exprCoeffs64 .lowPass).b0.isDivNode = false := by
  refine ⟨?_, rfl, rfl⟩
  decide

/-- C9 amended: the two instantiations take identical validation
decisions and compute semantically identical coefficients (the results
agree exactly over the reals for every selector and input), and the
arrangement of operations is identical for every variant except LowPass,
HighPass and Notch, where the f32 code divides by a0 while the f64 code
multiplies by the precomputed reciprocal 1/a0 (BandPass multiplies by
the reciprocal in both). -/
theorem C9_precision_equiv (P : MathPrims) (t : FilterType ℝ) (fs f0 : Hertz)
    (q x y z w : ℝ) :
    from_params32 P t fs f0 q = from_params64 P t fs f0 q ∧
    (∀ s : FilterType Unit, (exprCoeffs32 s).map (Expr.eval P x y z w) =
      (exprCoeffs64 s).map (Expr.eval P x y z w)) ∧
    (exprCoeffs32 .singlePoleLowPassApprox = exprCoeffs64 .singlePoleLowPassApprox ∧
     exprCoeffs32 .singlePoleLowPass = exprCoeffs64 .singlePoleLowPass ∧
     exprCoeffs32 .bandPass = exprCoeffs64 .bandPass ∧
     exprCoeffs32 .allPass = exprCoeffs64 .allPass ∧
     exprCoeffs32 (.lowShelf ()) = exprCoeffs64 (.lowShelf ()) ∧
     exprCoeffs32 (.highShelf ()) = exprCoeffs64 (.highShelf ()) ∧
     exprCoeffs32 (.peakingEQ ()) = exprCoeffs64 (.peakingEQ ())) ∧
    (exprCoeffs32 .lowPass ≠ exprCoeffs64 .lowPass ∧
     exprCoeffs32 .highPass ≠ exprCoeffs64 .highPass ∧
     exprCoeffs32 .notch ≠ exprCoeffs64 .notch) := by
  refine ⟨?_, ?_, ⟨rfl, rfl, rfl, rfl, rfl, rfl, rfl⟩, ?_, ?_, ?_⟩
  · unfold from_params32 from_params64
    split_ifs
    · rfl
    · rfl
    · rw [coeffs32_eq_coeffs64]
  · intro s
    cases s
    case singlePoleLowPassApprox => rfl
    case singlePoleLowPass => rfl
    case lowPass =>
      simp [exprCoeffs32, exprCoeffs64, Coefficients.map, Expr.eval, ← div_eq_mul_inv]
    case highPass =>
      simp [exprCoeffs32, exprCoeffs64, Coefficients.map, Expr.eval, ← div_eq_mul_inv]
    case bandPass => rfl
    case notch =>
      simp [exprCoeffs32, exprCoeffs64, Coefficients.map, Expr.eval, ← div_eq_mul_inv]
    case allPass => rfl
    case lowShelf u => rfl
    case highShelf u => rfl
    case peakingEQ u => rfl
  · decide
  · decide
  · decide

/-- Witness for C9 amended at the AllPass variant and a concrete input. -/
theorem C9_precision_equiv_witness :
    from_params32 dummyPrims .allPass ⟨1000, by norm_num⟩ ⟨100, by norm_num⟩ 1 =
      from_params64 dummyPrims .allPass ⟨1000, by norm_num⟩ ⟨100, by norm_num⟩ 1 :=
  (C9_precision_equiv dummyPrims .allPass ⟨1000, by norm_num⟩ ⟨100, by norm_num⟩
    1 0 0 0 0).1

@[simp] theorem fadd_none_left (x : FV) : fadd none x = none := by cases x <;> rfl

@[simp] theorem fadd_none_right (x : FV) : fadd x none = none := by cases x <;> rfl

@[simp] theorem fsub_none_left (x : FV) : fsub none x = none := by cases x <;> rfl

@[simp] theorem fsub_none_right (x : FV) : fsub x none = none := by cases x <;> rfl

@[simp] theorem fmul_none_left (x : FV) : fmul none x = none := by cases x <;> rfl

@[simp] theorem fmul_none_right (x : FV) : fmul x none = none := by cases x <;> rfl

@[simp] theorem fdiv_none_left (x : FV) : fdiv none x = none := by cases x <;> rfl

@[simp] theorem fdiv_none_right (x : FV) : fdiv x none = none := by cases x <;> rfl

@[simp] theorem fneg_none : fneg none = none := rfl

@[simp] theorem fgt_none_left (x : FV) : fgt none x = false := by cases x <;> rfl

@[simp] theorem fgt_none_right (x : FV) : fgt x none = false := by cases x <;> rfl

@[simp] theorem flt_none_left (x : FV) : flt none x = false := by cases x <;> rfl

@[simp] theorem flt_none_right (x : FV) : flt x none = false := by cases x <;> rfl

theorem from_params32FV_ok (P : FPrims) (t : FilterType FV) (fs f0 q : FV)
    (h1 : fgt (fmul (some 2) f0) fs = false) (h2 : flt q (some 0) = false) :
    from_params32FV P t fs f0 q = .ok (coeffs32FV P t fs f0 q) := by
  unfold from_params32FV
  simp [h1, h2]

theorem from_params64FV_ok (P : FPrims) (t : FilterType FV) (fs f0 q : FV)
    (h1 : fgt (fmul (some 2) f0) fs = false) (h2 : flt q (some 0) = false) :
    from_params64FV P t fs f0 q = .ok (coeffs64FV P t fs f0 q) := by
  unfold from_params64FV
  simp [h1, h2]

/-- C10 counterexample: with a NaN q but real frequencies beyond the
Nyquist limit, the two validation comparisons do not both evaluate to
false: the Nyquist comparison involves no NaN, evaluates true, and
from_params rejects with OutsideNyquist instead of returning the success
outcome the claim asserts. -/
theorem C10_counterexample :
    fgt (fmul (some 2) (some 600)) (some 1000) = true ∧
    from_params32FV dummyFPrims .lowPass (some 1000) (some 600) none =
      .error .outsideNyquist ∧
    from_params64FV dummyFPrims .lowPass (some 1000) (some 600) none =
      .error .outsideNyquist := by
  have hgt : fgt (fmul (some 2) (some 600)) (some 1000) = true := by
    norm_num [fgt, fmul]
  refine ⟨hgt, ?_, ?_⟩
  · unfold from_params32FV
    rw [if_pos hgt]
  · unfold from_params64FV
    rw [if_pos hgt]

/-- C10 amended: a validation comparison with a NaN operand evaluates to
false, so a NaN input never triggers the corresponding rejection: with
NaN fs or f0 the Nyquist comparison is false and, unless q is really
negative, the call succeeds with NaN-contaminated coefficients (b0 is
NaN); with NaN q the NegativeQ comparison is false and, when the Nyquist
check on the (real) fs and f0 passes, the call succeeds, with b0 NaN for
the q-dependent cookbook variants, while the q-independent single-pole
variants return clean (non-NaN) coefficients. -/
theorem C10_nan_validation (P : FPrims) (t : FilterType FV) (fs f0 q : FV)
    (hs : P.sin none = none) (hc : P.cos none = none) (ht : P.tan none = none) :
    (fs = none ∨ f0 = none → fgt (fmul (some 2) f0) fs = false) ∧
    flt (none : FV) (some 0) = false ∧
    (fs = none ∨ f0 = none → flt q (some 0) = false →
      from_params32FV P t fs f0 q = .ok (coeffs32FV P t fs f0 q) ∧
      (coeffs32FV P t fs f0 q).b0 = none ∧
      from_params64FV P t fs f0 q = .ok (coeffs64FV P t fs f0 q) ∧
      (coeffs64FV P t fs f0 q).b0 = none) ∧
    (fgt (fmul (some 2) f0) fs = false →
      from_params32FV P t fs f0 none = .ok (coeffs32FV P t fs f0 none) ∧
      (t.usesQ = true → (coeffs32FV P t fs f0 none).b0 = none) ∧
      from_params64FV P t fs f0 none = .ok (coeffs64FV P t fs f0 none) ∧
      (t.usesQ = true → (coeffs64FV P t fs f0 none).b0 = none)) ∧
    (from_params32FV dummyFPrims .singlePoleLowPassApprox (some 4) (some 1) none =
      .ok { a1 := some (-2/5), a2 := some 0, b0 := some (3/5),
            b1 := some 0, b2 := some 0 } ∧
     from_params64FV dummyFPrims .singlePoleLowPassApprox (some 4) (some 1) none =
      .ok { a1 := some (-2/5), a2 := some 0, b0 := some (3/5),
            b1 := some 0, b2 := some 0 }) := by
  have hA : fs = none ∨ f0 = none → fgt (fmul (some 2) f0) fs = false := by
    rintro (rfl | rfl) <;> simp
  refine ⟨hA, rfl, ?_, ?_, ?_, ?_⟩
  · intro h hq
    refine ⟨from_params32FV_ok P t fs f0 q (hA h) hq, ?_,
            from_params64FV_ok P t fs f0 q (hA h) hq, ?_⟩ <;>
    · rcases h with rfl | rfl <;> cases t <;>
        simp [coeffs32FV, coeffs64FV, hs, hc, ht]
  · intro hN
    refine ⟨from_params32FV_ok P t fs f0 none hN rfl, ?_,
            from_params64FV_ok P t fs f0 none hN rfl, ?_⟩ <;>
    · cases t <;> simp [coeffs32FV, coeffs64FV, FilterType.usesQ]
  · rw [from_params32FV_ok dummyFPrims .singlePoleLowPassApprox (some 4) (some 1) none
        (by norm_num [fgt, fmul]) rfl]
    simp [coeffs32FV, dummyFPrims, fmul, fdiv, fadd, fsub]
    norm_num
  · rw [from_params64FV_ok dummyFPrims .singlePoleLowPassApprox (some 4) (some 1) none
        (by norm_num [fgt, fmul]) rfl]
    simp [coeffs64FV, dummyFPrims, fmul, fdiv, fadd, fsub]
    norm_num

/-- Witness for C10 amended: NaN sampling frequency, Notch filter. -/
theorem C10_nan_validation_witness :
    from_params32FV dummyFPrims .notch none (some 1) (some 1) =
      .ok (coeffs32FV dummyFPrims .notch none (some 1) (some 1)) ∧
    (coeffs32FV dummyFPrims .notch none (some 1) (some 1)).b0 = none :=
  ⟨((C10_nan_validation dummyFPrims .notch none (some 1) (some 1) rfl rfl rfl).2.2.1
      (Or.inl rfl) rfl).1,
   ((C10_nan_validation dummyFPrims .notch none (some 1) (some 1) rfl rfl rfl).2.2.1
      (Or.inl rfl) rfl).2.1⟩
